import Mathlib

/-!
Shallow embedding of the AnvilFusion2 client components that the checked
claims are about:

* `src/client_code/components/FormInputs.py` — the `BaseInput` field-control
  class and its variants (Text/MultiLine/Number share the base behaviour,
  Date, DateTime, Time, Checkbox, RadioButton, Dropdown, Lookup, Signature,
  FileUpload, InlineMessage).
* `src/client_code/components/GridView.py` — column-schema resolution
  (`get_model_attribute`), grid-column assembly in `GridView.__init__`,
  the delete branch of `grid_action_handler`, and `update_grid`.

Modelling conventions:

* A field control's Python state is a record holding the cached value
  `_value`, the cached enabled flag `_enabled`, the optional widget handle
  `_control`, and the `visible` flag.  Property getters that mutate the
  cache are functions `state → result × state`.
* The third-party Syncfusion widgets are external collaborators; their
  handles are records holding exactly the properties the Python code reads
  or writes (value, enabled, checked, disabled, dataSource, ...).
* Python `datetime.date` is modelled as days since 1970-01-01 (`Int`),
  `datetime.datetime` as microseconds since the epoch (`Int`, the
  timezone-naive value read in the epoch timezone), and a JS `Date` as
  epoch milliseconds (`Int`).  `int(dt.strftime('%s'))` is floor division
  of microseconds by 1000000; `datetime.fromtimestamp(ms / 1000)` keeps
  the sub-second part, giving `ms * 1000` microseconds.
* The ISO-string branch of the date/time setters
  (`datetime.date.fromisoformat` / `datetime.datetime.fromisoformat`) is
  not embedded: no claim exercises string-typed inputs, and the control's
  own code paths (`show`, cache restore) never produce strings.
-/

namespace AnvilFusion2

/-- Handle of a plain value-holding Syncfusion widget (TextBox,
NumericTextBox, DatePicker, DateTimePicker, TimePicker, DropDownList):
the properties the Python code touches are `value` and `enabled`. -/
structure Widget (α : Type) where
  value : Option α
  enabled : Bool
deriving DecidableEq

/-- State of `BaseInput` (FormInputs.py lines 30-154): cached `_value`,
cached `_enabled`, optional widget handle `_control`, and `visible`.
`TextInput`, `MultiLineInput` and `NumberInput` differ from the base only
in static HTML and in which widget constructor `create_control` calls, so
they share this state and these operations. -/
structure BaseInputS (α : Type) where
  cache : Option α
  enabledCache : Bool
  control : Option (Widget α)
  visible : Bool
deriving DecidableEq

namespace BaseInputS

/-- Constructor `BaseInput.__init__`: seeds the value and enabled caches,
no widget handle yet, not visible. -/
def init (value : Option α) (enabled : Bool) : BaseInputS α :=
  { cache := value, enabledCache := enabled, control := none, visible := false }

/-- Getter `BaseInput.value` (lines 98-102): when a widget exists the cache
is synchronized from it unconditionally, then the cache is returned. -/
def valueGet (s : BaseInputS α) : Option α × BaseInputS α :=
  match s.control with
  | some w => (w.value, { s with cache := w.value })
  | none => (s.cache, s)

/-- Setter `BaseInput.value` (lines 104-107): pushes into the widget when
one exists; note that the cache `_value` is NOT assigned. -/
def valueSet (s : BaseInputS α) (v : Option α) : BaseInputS α :=
  match s.control with
  | some w => { s with control := some { w with value := v } }
  | none => s

/-- Getter `BaseInput.enabled` (lines 87-91): synchronizes the cache from
the widget and returns it when mounted, otherwise falls through and
returns Python `None`. -/
def enabledGet (s : BaseInputS α) : Option Bool × BaseInputS α :=
  match s.control with
  | some w => (some w.enabled, { s with enabledCache := w.enabled })
  | none => (none, s)

/-- Setter `BaseInput.enabled` (lines 93-96): stores the cache and pushes
into the widget when one exists. -/
def enabledSet (s : BaseInputS α) (b : Bool) : BaseInputS α :=
  { s with enabledCache := b,
           control := s.control.map fun w => { w with enabled := b } }

/-- `TextInput.create_control` (and the NumericTextBox analogue): a fresh
widget has no value and is enabled. -/
def createControl (s : BaseInputS α) : BaseInputS α :=
  { s with control := some { value := none, enabled := true } }

/-- `BaseInput.show` (lines 112-122): no-op when already visible; otherwise
creates the widget if none exists, pushes the cached value through the
value setter, marks visible, and pushes the cached enabled flag. -/
def show_ (s : BaseInputS α) : BaseInputS α :=
  if s.visible then s
  else
    let s1 := if s.control.isNone then createControl s else s
    let s2 := valueSet s1 s1.cache
    let s3 := { s2 with visible := true }
    enabledSet s3 s3.enabledCache

/-- `BaseInput.hide` (lines 124-128): clears the rendered content and marks
not visible; the widget handle is untouched. -/
def hide (s : BaseInputS α) : BaseInputS α :=
  if s.visible then { s with visible := false } else s

/-- `BaseInput.destroy` (lines 151-154): releases the widget handle when
one exists, otherwise a no-op; `visible` is untouched. -/
def destroy (s : BaseInputS α) : BaseInputS α :=
  match s.control with
  | some _ => { s with control := none }
  | none => s

end BaseInputS

/-- State of `DropdownInput` (FormInputs.py lines 416-468).  The option
list `_options` only feeds the widget's `dataSource` at creation; the
value getter/setter pass the widget value through untouched in both
select modes, so the value type stays opaque here. -/
structure DropdownS (α : Type) where
  cache : Option α
  enabledCache : Bool
  control : Option (Widget α)
  visible : Bool
deriving DecidableEq

namespace DropdownS

/-- Constructor seeding of value/enabled caches in `BaseInput.__init__`. -/
def init (value : Option α) (enabled : Bool) : DropdownS α :=
  { cache := value, enabledCache := enabled, control := none, visible := false }

/-- Getter `DropdownInput.value` (lines 448-452): synchronizes the cache
only when the widget exists and its value is not `None`. -/
def valueGet (s : DropdownS α) : Option α × DropdownS α :=
  match s.control with
  | some w =>
    match w.value with
    | some v => (some v, { s with cache := some v })
    | none => (s.cache, s)
  | none => (s.cache, s)

/-- Setter `DropdownInput.value` (lines 454-458): always stores the cache,
and pushes into the widget when one exists. -/
def valueSet (s : DropdownS α) (v : Option α) : DropdownS α :=
  { s with cache := v,
           control := s.control.map fun w => { w with value := v } }

/-- Getter `BaseInput.enabled`, inherited. -/
def enabledGet (s : DropdownS α) : Option Bool × DropdownS α :=
  match s.control with
  | some w => (some w.enabled, { s with enabledCache := w.enabled })
  | none => (none, s)

/-- Setter `BaseInput.enabled`, inherited. -/
def enabledSet (s : DropdownS α) (b : Bool) : DropdownS α :=
  { s with enabledCache := b,
           control := s.control.map fun w => { w with enabled := b } }

/-- `DropdownInput.create_control`: a fresh DropDownList / MultiSelect
bound to the held option list; its `value` starts empty, enabled. -/
def createControl (s : DropdownS α) : DropdownS α :=
  { s with control := some { value := none, enabled := true } }

/-- `BaseInput.show`, inherited; dynamic dispatch makes it use the
dropdown's own value setter. -/
def show_ (s : DropdownS α) : DropdownS α :=
  if s.visible then s
  else
    let s1 := if s.control.isNone then createControl s else s
    let s2 := valueSet s1 s1.cache
    let s3 := { s2 with visible := true }
    enabledSet s3 s3.enabledCache

/-- `BaseInput.hide`, inherited. -/
def hide (s : DropdownS α) : DropdownS α :=
  if s.visible then { s with visible := false } else s

/-- `BaseInput.destroy`, inherited. -/
def destroy (s : DropdownS α) : DropdownS α :=
  match s.control with
  | some _ => { s with control := none }
  | none => s

end DropdownS

/-- Argument shapes accepted by the date/time value setters: a Python
`datetime.date`/`datetime.datetime` (already domain-typed) or a JS `Date`
carrying epoch milliseconds.  The `fromisoformat` string branch is left
out of the embedding (see the module comment). -/
inductive DtArg where
  | py (v : Int)
  | js (ms : Int)
deriving DecidableEq

/-- State of `DateInput` (FormInputs.py lines 195-230).  The cache holds a
`datetime.date` as days since 1970-01-01; the widget value is an epoch in
milliseconds. -/
structure DateInputS where
  cache : Option Int
  enabledCache : Bool
  control : Option (Widget Int)
  visible : Bool
deriving DecidableEq

namespace DateInputS

/-- Conversion used on the read path: `datetime.date.fromtimestamp(epoch /
1000)` — the calendar day containing the timestamp. -/
def dateOfEpochMs (ms : Int) : Int := ms.ediv 86400000

/-- Conversion used on the write path: `datetime.datetime.combine(value,
midnight)` then `int(dt.strftime('%s')) * 1000` — local midnight in epoch
milliseconds. -/
def epochMsOfDate (d : Int) : Int := d * 86400000

/-- Getter `DateInput.value` (lines 204-209): converts the widget epoch to
a date only when the widget exists and holds a value. -/
def valueGet (s : DateInputS) : Option Int × DateInputS :=
  match s.control with
  | some w =>
    match w.value with
    | some ms => (some (dateOfEpochMs ms), { s with cache := some (dateOfEpochMs ms) })
    | none => (s.cache, s)
  | none => (s.cache, s)

/-- Setter `DateInput.value` (lines 211-226): `None` clears both cache and
widget; otherwise the input is normalized to a date, cached, and pushed to
the widget as a midnight epoch when mounted. -/
def valueSet (s : DateInputS) (v : Option DtArg) : DateInputS :=
  match v with
  | none =>
    { s with cache := none,
             control := s.control.map fun w => { w with value := none } }
  | some a =>
    let d := match a with
             | .py d => d
             | .js ms => dateOfEpochMs ms
    { s with cache := some d,
             control := s.control.map fun w => { w with value := some (epochMsOfDate d) } }

/-- Getter `BaseInput.enabled`, inherited. -/
def enabledGet (s : DateInputS) : Option Bool × DateInputS :=
  match s.control with
  | some w => (some w.enabled, { s with enabledCache := w.enabled })
  | none => (none, s)

/-- Setter `BaseInput.enabled`, inherited. -/
def enabledSet (s : DateInputS) (b : Bool) : DateInputS :=
  { s with enabledCache := b,
           control := s.control.map fun w => { w with enabled := b } }

/-- `DateInput.create_control`: a fresh DatePicker, empty and enabled. -/
def createControl (s : DateInputS) : DateInputS :=
  { s with control := some { value := none, enabled := true } }

/-- `BaseInput.show`, inherited; `self.value = self._value` dispatches to
the date setter with the cached `datetime.date`. -/
def show_ (s : DateInputS) : DateInputS :=
  if s.visible then s
  else
    let s1 := if s.control.isNone then createControl s else s
    let s2 := valueSet s1 (s1.cache.map .py)
    let s3 := { s2 with visible := true }
    enabledSet s3 s3.enabledCache

/-- `BaseInput.hide`, inherited. -/
def hide (s : DateInputS) : DateInputS :=
  if s.visible then { s with visible := false } else s

/-- `BaseInput.destroy`, inherited. -/
def destroy (s : DateInputS) : DateInputS :=
  match s.control with
  | some _ => { s with control := none }
  | none => s

end DateInputS

/-- State of `DateTimeInput` (FormInputs.py lines 234-268).  The cache
holds a timezone-naive `datetime.datetime` as microseconds since the
epoch; the widget value is an epoch in milliseconds. -/
structure DateTimeInputS where
  cache : Option Int
  enabledCache : Bool
  control : Option (Widget Int)
  visible : Bool
deriving DecidableEq

namespace DateTimeInputS

/-- Read path `datetime.datetime.fromtimestamp(epoch / 1000)`: the
sub-second part of the millisecond epoch survives as microseconds. -/
def usOfEpochMs (ms : Int) : Int := ms * 1000

/-- Write path `int(self._value.strftime('%s')) * 1000`: whole-second
truncation of the cached datetime, then milliseconds. -/
def epochMsOfUs (us : Int) : Int := us.ediv 1000000 * 1000

/-- Getter `DateTimeInput.value` (lines 243-248). -/
def valueGet (s : DateTimeInputS) : Option Int × DateTimeInputS :=
  match s.control with
  | some w =>
    match w.value with
    | some ms => (some (usOfEpochMs ms), { s with cache := some (usOfEpochMs ms) })
    | none => (s.cache, s)
  | none => (s.cache, s)

/-- Setter `DateTimeInput.value` (lines 250-264). -/
def valueSet (s : DateTimeInputS) (v : Option DtArg) : DateTimeInputS :=
  match v with
  | none =>
    { s with cache := none,
             control := s.control.map fun w => { w with value := none } }
  | some a =>
    let us := match a with
              | .py us => us
              | .js ms => usOfEpochMs ms
    { s with cache := some us,
             control := s.control.map fun w => { w with value := some (epochMsOfUs us) } }

/-- Getter `BaseInput.enabled`, inherited. -/
def enabledGet (s : DateTimeInputS) : Option Bool × DateTimeInputS :=
  match s.control with
  | some w => (some w.enabled, { s with enabledCache := w.enabled })
  | none => (none, s)

/-- Setter `BaseInput.enabled`, inherited. -/
def enabledSet (s : DateTimeInputS) (b : Bool) : DateTimeInputS :=
  { s with enabledCache := b,
           control := s.control.map fun w => { w with enabled := b } }

/-- `DateTimeInput.create_control`: a fresh DateTimePicker. -/
def createControl (s : DateTimeInputS) : DateTimeInputS :=
  { s with control := some { value := none, enabled := true } }

/-- `BaseInput.show`, inherited, dispatching to the date-time setter. -/
def show_ (s : DateTimeInputS) : DateTimeInputS :=
  if s.visible then s
  else
    let s1 := if s.control.isNone then createControl s else s
    let s2 := valueSet s1 (s1.cache.map .py)
    let s3 := { s2 with visible := true }
    enabledSet s3 s3.enabledCache

/-- `BaseInput.hide`, inherited. -/
def hide (s : DateTimeInputS) : DateTimeInputS :=
  if s.visible then { s with visible := false } else s

/-- `BaseInput.destroy`, inherited. -/
def destroy (s : DateTimeInputS) : DateTimeInputS :=
  match s.control with
  | some _ => { s with control := none }
  | none => s

end DateTimeInputS

/-- State of `TimeInput` (FormInputs.py lines 272-307).  The cache holds a
`datetime.datetime` as microseconds since the epoch; the widget value is
an epoch in milliseconds. -/
structure TimeInputS where
  cache : Option Int
  enabledCache : Bool
  control : Option (Widget Int)
  visible : Bool
deriving DecidableEq

namespace TimeInputS

/-- Read path (lines 281-287): `getHours()` / `getMinutes()` of the widget
value, re-anchored on `datetime.datetime(1970, 1, 1, hours, minutes)`. -/
def timeOfEpochMs (ms : Int) : Int :=
  ((ms.ediv 3600000).emod 24 * 3600 + (ms.ediv 60000).emod 60 * 60) * 1000000

/-- Write path, identical to the date-time variant:
`int(self._value.strftime('%s')) * 1000` — whole-second truncation only,
the seconds component is kept. -/
def epochMsOfUs (us : Int) : Int := us.ediv 1000000 * 1000

/-- Getter `TimeInput.value` (lines 281-287). -/
def valueGet (s : TimeInputS) : Option Int × TimeInputS :=
  match s.control with
  | some w =>
    match w.value with
    | some ms => (some (timeOfEpochMs ms), { s with cache := some (timeOfEpochMs ms) })
    | none => (s.cache, s)
  | none => (s.cache, s)

/-- Setter `TimeInput.value` (lines 289-303). -/
def valueSet (s : TimeInputS) (v : Option DtArg) : TimeInputS :=
  match v with
  | none =>
    { s with cache := none,
             control := s.control.map fun w => { w with value := none } }
  | some a =>
    let us := match a with
              | .py us => us
              | .js ms => ms * 1000
    { s with cache := some us,
             control := s.control.map fun w => { w with value := some (epochMsOfUs us) } }

/-- Getter `BaseInput.enabled`, inherited. -/
def enabledGet (s : TimeInputS) : Option Bool × TimeInputS :=
  match s.control with
  | some w => (some w.enabled, { s with enabledCache := w.enabled })
  | none => (none, s)

/-- Setter `BaseInput.enabled`, inherited. -/
def enabledSet (s : TimeInputS) (b : Bool) : TimeInputS :=
  { s with enabledCache := b,
           control := s.control.map fun w => { w with enabled := b } }

/-- `TimeInput.create_control`: a fresh TimePicker. -/
def createControl (s : TimeInputS) : TimeInputS :=
  { s with control := some { value := none, enabled := true } }

/-- `BaseInput.show`, inherited, dispatching to the time setter. -/
def show_ (s : TimeInputS) : TimeInputS :=
  if s.visible then s
  else
    let s1 := if s.control.isNone then createControl s else s
    let s2 := valueSet s1 (s1.cache.map .py)
    let s3 := { s2 with visible := true }
    enabledSet s3 s3.enabledCache

/-- `BaseInput.hide`, inherited. -/
def hide (s : TimeInputS) : TimeInputS :=
  if s.visible then { s with visible := false } else s

/-- `BaseInput.destroy`, inherited. -/
def destroy (s : TimeInputS) : TimeInputS :=
  match s.control with
  | some _ => { s with control := none }
  | none => s

end TimeInputS

/-- Handle of the Syncfusion CheckBox widget: the Python code touches
`checked` and `disabled`. -/
structure CheckWidget where
  checked : Bool
  disabled : Bool
deriving DecidableEq

/-- State of `CheckboxInput` (FormInputs.py lines 311-356). -/
structure CheckboxInputS where
  cache : Option Bool
  enabledCache : Bool
  control : Option CheckWidget
  visible : Bool
deriving DecidableEq

namespace CheckboxInputS

/-- Reading the misspelled attribute `self.control.disbled` (line 346):
the JS widget has no such property, so the access yields `undefined`,
which anvil.js maps to Python `None` — whatever `disabled` holds. -/
def jsDisbled (_w : CheckWidget) : Option Bool := none

/-- Python `not x` on an optional boolean: `not None` is `True`. -/
def pyNot : Option Bool → Bool
  | none => true
  | some b => !b

/-- Getter `CheckboxInput.value` (lines 331-335): truthiness test on the
widget handle, then the cache mirrors `checked`. -/
def valueGet (s : CheckboxInputS) : Option Bool × CheckboxInputS :=
  match s.control with
  | some w => (some w.checked, { s with cache := some w.checked })
  | none => (s.cache, s)

/-- Setter `CheckboxInput.value` (lines 337-341): caches, and pushes into
`checked` when mounted; assigning a Python `None` leaves the JS checkbox
unchecked. -/
def valueSet (s : CheckboxInputS) (v : Option Bool) : CheckboxInputS :=
  { s with cache := v,
           control := s.control.map fun w => { w with checked := v = some true } }

/-- Getter `CheckboxInput.enabled` (lines 343-347): computes
`not self.control.disbled` — the misspelling makes this `True` whenever a
widget exists; falls through to `None` otherwise. -/
def enabledGet (s : CheckboxInputS) : Option Bool × CheckboxInputS :=
  match s.control with
  | some w => (some (pyNot (jsDisbled w)), { s with enabledCache := pyNot (jsDisbled w) })
  | none => (none, s)

/-- Setter `CheckboxInput.enabled` (lines 349-353): caches, and sets the
correctly spelled `disabled` to the negation when mounted. -/
def enabledSet (s : CheckboxInputS) (b : Bool) : CheckboxInputS :=
  { s with enabledCache := b,
           control := s.control.map fun w => { w with disabled := !b } }

/-- `CheckboxInput.create_control`: a fresh CheckBox, unchecked and not
disabled. -/
def createControl (s : CheckboxInputS) : CheckboxInputS :=
  { s with control := some { checked := false, disabled := false } }

/-- `BaseInput.show`, inherited, dispatching to the checkbox setters. -/
def show_ (s : CheckboxInputS) : CheckboxInputS :=
  if s.visible then s
  else
    let s1 := if s.control.isNone then createControl s else s
    let s2 := valueSet s1 s1.cache
    let s3 := { s2 with visible := true }
    enabledSet s3 s3.enabledCache

/-- `BaseInput.hide`, inherited. -/
def hide (s : CheckboxInputS) : CheckboxInputS :=
  if s.visible then { s with visible := false } else s

/-- `BaseInput.destroy`, inherited. -/
def destroy (s : CheckboxInputS) : CheckboxInputS :=
  match s.control with
  | some _ => { s with control := none }
  | none => s

end CheckboxInputS

/-- Handle of one Syncfusion RadioButton: the code touches `checked` and
reads back the configured `properties['value']`, which equals the option's
own value. -/
structure RadioWidget where
  checked : Bool
deriving DecidableEq

/-- One entry of `RadioButtonInput.options`: the option value and, once
`create_control` ran, the per-option widget under the `'control'` key. -/
structure RadioOpt (α : Type) where
  val : α
  control : Option RadioWidget
deriving DecidableEq

/-- State of `RadioButtonInput` (FormInputs.py lines 360-411).  The class
never assigns `self.control`, so the inherited `_control` stays `None`;
the widgets live inside the option list. -/
structure RadioInputS (α : Type) where
  cache : Option α
  enabledCache : Bool
  options : List (RadioOpt α)
  visible : Bool
deriving DecidableEq

namespace RadioInputS

/-- The scan of the options loop in the `RadioButtonInput.value` getter:
every checked option with a widget overwrites the accumulator, so the last
checked option wins. -/
def radioScan : Option α → List (RadioOpt α) → Option α
  | c, [] => c
  | c, o :: os =>
    radioScan
      (match o.control with
       | some rb => if rb.checked then some o.val else c
       | none => c) os

/-- Getter `RadioButtonInput.value` (lines 391-396): scans the options and
re-assigns the cache for every checked one, then returns the cache. -/
def valueGet [DecidableEq α] (s : RadioInputS α) : Option α × RadioInputS α :=
  let c := radioScan s.cache s.options
  (c, { s with cache := c })

/-- The per-option body of the `RadioButtonInput.value` setter loop: when
the option holds a widget and its value equals the new cache, the widget
is checked; otherwise the option is untouched. -/
def setOption [DecidableEq α] (v : Option α) (o : RadioOpt α) : RadioOpt α :=
  match o.control with
  | some _ => if some o.val = v then { o with control := some { checked := true } } else o
  | none => o

/-- The per-option body of `RadioButtonInput.create_control`: a fresh,
unchecked RadioButton widget for the option. -/
def freshOption (o : RadioOpt α) : RadioOpt α :=
  { o with control := some { checked := false } }

/-- Setter `RadioButtonInput.value` (lines 398-403): caches, then checks
every option widget whose value equals the new cache; others are left as
they are. -/
def valueSet [DecidableEq α] (s : RadioInputS α) (v : Option α) : RadioInputS α :=
  { s with cache := v, options := s.options.map (setOption v) }

/-- Getter `BaseInput.enabled`, inherited: `_control` is always `None`
here, so the getter always falls through to Python `None`. -/
def enabledGet (s : RadioInputS α) : Option Bool × RadioInputS α :=
  (none, s)

/-- Setter `BaseInput.enabled`, inherited: only the cache is written. -/
def enabledSet (s : RadioInputS α) (b : Bool) : RadioInputS α :=
  { s with enabledCache := b }

/-- `RadioButtonInput.create_control` (lines 379-389): builds a fresh,
unchecked RadioButton for every option, then runs the value setter on the
cache. -/
def createControl [DecidableEq α] (s : RadioInputS α) : RadioInputS α :=
  let s1 := { s with options := s.options.map freshOption }
  valueSet s1 s1.cache

/-- `RadioButtonInput.show` (lines 405-411): rebuilds the widgets through
`create_control` on every show, pushes the cached value, and marks
visible; unlike the base `show`, the enabled flag is not re-applied. -/
def show_ [DecidableEq α] (s : RadioInputS α) : RadioInputS α :=
  if s.visible then s
  else
    let s1 := createControl s
    let s2 := valueSet s1 s1.cache
    { s2 with visible := true }

/-- `BaseInput.hide`, inherited. -/
def hide (s : RadioInputS α) : RadioInputS α :=
  if s.visible then { s with visible := false } else s

end RadioInputS

/-- One dropdown option of a `LookupInput`: a `{name, uid}` pair as built
in `LookupInput.__init__` / `get_options`. -/
structure OptItem (κ : Type) where
  uid : κ
  name : String
deriving DecidableEq

/-- Handle of the Syncfusion DropDownList a single-select `LookupInput`
drives: the code touches `value` (the selected uid), `dataSource` and
`enabled`, and calls `getDataByValue`. -/
structure LookupWidget (κ : Type) where
  value : Option κ
  dataSource : List (OptItem κ)
  enabled : Bool
deriving DecidableEq

/-- State of a single-select `LookupInput` (FormInputs.py lines 472-548).
The multi-select mode differs only in list-shaped values and is not
embedded. -/
structure LookupInputS (κ : Type) where
  cache : Option (OptItem κ)
  enabledCache : Bool
  options : List (OptItem κ)
  control : Option (LookupWidget κ)
  visible : Bool
deriving DecidableEq

namespace LookupInputS

/-- Widget lookup `getDataByValue`: the dataSource item whose value field
(`uid`) equals the given key, or `None`. -/
def getDataByValue [DecidableEq κ] (w : LookupWidget κ) (k : κ) : Option (OptItem κ) :=
  w.dataSource.find? fun o => o.uid = k

/-- Getter `LookupInput.value` (lines 530-537), single-select branch: the
cache becomes the full option object looked up from the selected uid. -/
def valueGet [DecidableEq κ] (s : LookupInputS κ) : Option (OptItem κ) × LookupInputS κ :=
  match s.control with
  | some w =>
    match w.value with
    | some k => (getDataByValue w k, { s with cache := getDataByValue w k })
    | none => (s.cache, s)
  | none => (s.cache, s)

/-- Setter `LookupInput.value` (lines 539-548), single-select branch: only
pushes the option's uid (or `None`) into the widget when mounted; the
cache `_value` is NOT assigned. -/
def valueSet (s : LookupInputS κ) (v : Option (OptItem κ)) : LookupInputS κ :=
  { s with control := s.control.map fun w =>
      match v with
      | some it => { w with value := some it.uid }
      | none => { w with value := none } }

/-- Getter `BaseInput.enabled`, inherited. -/
def enabledGet (s : LookupInputS κ) : Option Bool × LookupInputS κ :=
  match s.control with
  | some w => (some w.enabled, { s with enabledCache := w.enabled })
  | none => (none, s)

/-- Setter `BaseInput.enabled`, inherited. -/
def enabledSet (s : LookupInputS κ) (b : Bool) : LookupInputS κ :=
  { s with enabledCache := b,
           control := s.control.map fun w => { w with enabled := b } }

/-- `DropdownInput.create_control` via `LookupInput.create_control`: a
fresh DropDownList bound to the held option list. -/
def createControl (s : LookupInputS κ) : LookupInputS κ :=
  { s with control := some { value := none, dataSource := s.options, enabled := true } }

/-- `BaseInput.show`, inherited, dispatching to the lookup setter. -/
def show_ (s : LookupInputS κ) : LookupInputS κ :=
  if s.visible then s
  else
    let s1 := if s.control.isNone then createControl s else s
    let s2 := valueSet s1 s1.cache
    let s3 := { s2 with visible := true }
    enabledSet s3 s3.enabledCache

/-- `BaseInput.hide`, inherited. -/
def hide (s : LookupInputS κ) : LookupInputS κ :=
  if s.visible then { s with visible := false } else s

/-- `BaseInput.destroy`, inherited. -/
def destroy (s : LookupInputS κ) : LookupInputS κ :=
  match s.control with
  | some _ => { s with control := none }
  | none => s

end LookupInputS

/-- Handle of the Syncfusion Signature widget: the code calls
`getSignature({})` (returning the current drawing payload), `load`, and
touches `enabled`. -/
structure SigWidget (α : Type) where
  sig : α
  enabled : Bool
deriving DecidableEq

/-- State of `SignatureInput` (FormInputs.py lines 588-614). -/
structure SignatureInputS (α : Type) where
  cache : Option α
  enabledCache : Bool
  control : Option (SigWidget α)
  visible : Bool
deriving DecidableEq

namespace SignatureInputS

/-- Getter `SignatureInput.value` (lines 604-608): reads `getSignature`
into the cache when mounted; otherwise the method body is skipped and
Python returns `None` without touching the cache. -/
def valueGet (s : SignatureInputS α) : Option α × SignatureInputS α :=
  match s.control with
  | some w => (some w.sig, { s with cache := some w.sig })
  | none => (none, s)

/-- Setter `SignatureInput.value` (lines 610-614): caches, and loads the
payload into the widget when mounted and the payload is not `None`. -/
def valueSet (s : SignatureInputS α) (v : Option α) : SignatureInputS α :=
  { s with cache := v,
           control := s.control.map fun w =>
             match v with
             | some x => { w with sig := x }
             | none => w }

/-- Getter `BaseInput.enabled`, inherited. -/
def enabledGet (s : SignatureInputS α) : Option Bool × SignatureInputS α :=
  match s.control with
  | some w => (some w.enabled, { s with enabledCache := w.enabled })
  | none => (none, s)

/-- Setter `BaseInput.enabled`, inherited. -/
def enabledSet (s : SignatureInputS α) (b : Bool) : SignatureInputS α :=
  { s with enabledCache := b,
           control := s.control.map fun w => { w with enabled := b } }

/-- `SignatureInput.create_control`: a fresh Signature canvas with the
blank drawing payload. -/
def createControl [Inhabited α] (s : SignatureInputS α) : SignatureInputS α :=
  { s with control := some { sig := default, enabled := true } }

/-- `BaseInput.show`, inherited, dispatching to the signature setter. -/
def show_ [Inhabited α] (s : SignatureInputS α) : SignatureInputS α :=
  if s.visible then s
  else
    let s1 := if s.control.isNone then createControl s else s
    let s2 := valueSet s1 s1.cache
    let s3 := { s2 with visible := true }
    enabledSet s3 s3.enabledCache

/-- `BaseInput.hide`, inherited. -/
def hide (s : SignatureInputS α) : SignatureInputS α :=
  if s.visible then { s with visible := false } else s

end SignatureInputS

/-- Handle of the Syncfusion Uploader widget; value reads and writes never
touch it, only `enabled` is pushed by the inherited operations. -/
structure UploadWidget where
  enabled : Bool
deriving DecidableEq

/-- State of `FileUploadInput` (FormInputs.py lines 618-644 for the value
contract).  The cache `_value` is the list of uploaded-file descriptors;
the upload/removal callbacks against remote storage are outside the
checked claims. -/
structure UploadInputS (α : Type) where
  cache : List α
  enabledCache : Bool
  control : Option UploadWidget
  visible : Bool
deriving DecidableEq

namespace UploadInputS

/-- Getter `FileUploadInput.value` (lines 638-640): the cache, always. -/
def valueGet (s : UploadInputS α) : List α × UploadInputS α :=
  (s.cache, s)

/-- Setter `FileUploadInput.value` (lines 642-644): the cache, always. -/
def valueSet (s : UploadInputS α) (v : List α) : UploadInputS α :=
  { s with cache := v }

/-- Getter `BaseInput.enabled`, inherited. -/
def enabledGet (s : UploadInputS α) : Option Bool × UploadInputS α :=
  match s.control with
  | some w => (some w.enabled, { s with enabledCache := w.enabled })
  | none => (none, s)

/-- Setter `BaseInput.enabled`, inherited. -/
def enabledSet (s : UploadInputS α) (b : Bool) : UploadInputS α :=
  { s with enabledCache := b,
           control := s.control.map fun w => { w with enabled := b } }

/-- `FileUploadInput.create_control`: a fresh Uploader. -/
def createControl (s : UploadInputS α) : UploadInputS α :=
  { s with control := some { enabled := true } }

/-- `BaseInput.show`, inherited, dispatching to the upload setter. -/
def show_ (s : UploadInputS α) : UploadInputS α :=
  if s.visible then s
  else
    let s1 := if s.control.isNone then createControl s else s
    let s2 := valueSet s1 s1.cache
    let s3 := { s2 with visible := true }
    enabledSet s3 s3.enabledCache

/-- `BaseInput.hide`, inherited. -/
def hide (s : UploadInputS α) : UploadInputS α :=
  if s.visible then { s with visible := false } else s

end UploadInputS

/-- State of `InlineMessage` (FormInputs.py lines 681-703): no widget is
ever created; the rendered content mirrors `self.message`. -/
structure InlineMessageS (α : Type) where
  message : Option α
  cache : Option α
  enabledCache : Bool
  visible : Bool
deriving DecidableEq

namespace InlineMessageS

/-- Getter `InlineMessage.value` (lines 689-692): copies the message into
the cache and returns it. -/
def valueGet (s : InlineMessageS α) : Option α × InlineMessageS α :=
  (s.message, { s with cache := s.message })

/-- Setter `InlineMessage.value` (lines 694-697): stores the message and
re-renders it into the placeholder element (a DOM effect, stateless
here; the element only exists while the control is shown). -/
def valueSet (s : InlineMessageS α) (v : Option α) : InlineMessageS α :=
  { s with message := v }

/-- Getter `BaseInput.enabled`, inherited: `_control` is always `None`. -/
def enabledGet (s : InlineMessageS α) : Option Bool × InlineMessageS α :=
  (none, s)

/-- Setter `BaseInput.enabled`, inherited: only the cache is written. -/
def enabledSet (s : InlineMessageS α) (b : Bool) : InlineMessageS α :=
  { s with enabledCache := b }

/-- `InlineMessage.show` (lines 699-703): renders the message and marks
visible; no widget, no value/enabled push. -/
def show_ (s : InlineMessageS α) : InlineMessageS α :=
  if s.visible then s else { s with visible := true }

/-- `BaseInput.hide`, inherited. -/
def hide (s : InlineMessageS α) : InlineMessageS α :=
  if s.visible then { s with visible := false } else s

end InlineMessageS

/-! GridView.py: schema resolution and grid assembly.  The ORM layer
(`..datamodel`, reached through `AppEnv.data_models`) is repository code
that is not under `src/`; its metadata shape and record operations are
modelled from the spec where noted. -/

/-- Modelled from the spec: the semantic field type carried by the ORM's
attribute metadata (spec section 6 — "a semantic type and default display
format"; `dmtypes.FieldTypes.BOOLEAN` is one such value, used by the
boolean-column check in `GridView.__init__`). -/
structure FieldType where
  tag : String
  GridType : String
  GridFormat : String
deriving DecidableEq

/-- The BOOLEAN member of the `dmtypes.FieldTypes` enumeration. -/
def FieldTypes.BOOLEAN : FieldType :=
  { tag := "boolean", GridType := "boolean", GridFormat := "" }

/-- Modelled from the spec: one entry of a model's `_attributes` or
`_computes` map — a descriptor carrying the field type. -/
structure Attribute where
  field_type : FieldType
deriving DecidableEq

/-- Modelled from the spec: one entry of a model's `_relationships` map —
a descriptor naming the related model class. -/
structure Relationship where
  class_name : String
deriving DecidableEq

/-- Modelled from the spec: the per-model metadata the resolver walks —
`_attributes`, `_computes`, `_relationships` keyed by field name, and the
designated `_title` attribute name. -/
structure ModelClass where
  _attributes : List (String × Attribute)
  _computes : List (String × Attribute)
  _relationships : List (String × Relationship)
  _title : String
deriving DecidableEq

/-- The model namespace `AppEnv.data_models`: class name to class. -/
abbrev ModelEnv := List (String × ModelClass)

/-- Second component returned by `get_model_attribute`: the attribute name
as passed (a string), or — in the dotted branch — the split list that the
source assigns over the same variable. -/
inductive AttrNameR where
  | str (s : String)
  | list (parts : List String)
deriving DecidableEq

/-- Embedding of the Python membership test `'.' in attr_name`. -/
def pyContainsDot (s : String) : Bool := s.data.contains '.'

/-- Splitting a character list on a separator, keeping empty groups, as
Python's `str.split` does. -/
def splitOnChar (c : Char) : List Char → List (List Char)
  | [] => [[]]
  | x :: xs =>
    if x = c then [] :: splitOnChar c xs
    else
      match splitOnChar c xs with
      | [] => [[x]]
      | g :: gs => (x :: g) :: gs

/-- Embedding of Python's `attr_name.split('.')`. -/
def pySplitDot (s : String) : List String :=
  (splitOnChar '.' s.data).map fun l => ⟨l⟩

/-- Joining character groups with a separator. -/
def joinChar (c : Char) : List (List Char) → List Char
  | [] => []
  | [g] => g
  | g :: gs => g ++ c :: joinChar c gs

/-- Embedding of Python's `'.'.join(parts)`. -/
def pyJoinDot (ps : List String) : String :=
  ⟨joinChar '.' (ps.map (·.data))⟩

/-- Fuel-indexed body of `get_model_attribute` (GridView.py lines 60-76).
The outer `Option` is `none` exactly when `getattr(model, class_name)`
would raise (unknown class); the inner `Option Attribute` is the `attr`
result, which the source leaves `None` for unresolvable names.  The fuel
strictly exceeds the dot-depth on every call from `get_model_attribute`,
so the `0` case is unreachable there. -/
def getModelAttributeAux (env : ModelEnv) : Nat → String → String → Option (Option Attribute × AttrNameR)
  | 0, _, _ => none
  | fuel + 1, class_name, attr_name0 =>
    match env.lookup class_name with
    | none => none
    | some cls =>
      let attr_name := if attr_name0 = "_title" then cls._title else attr_name0
      if (cls._attributes.lookup attr_name).isSome then
        some (cls._attributes.lookup attr_name, .str attr_name)
      else if (cls._computes.lookup attr_name).isSome then
        some (cls._computes.lookup attr_name, .str attr_name)
      else if pyContainsDot attr_name then
        let parts := pySplitDot attr_name
        let head := parts.headD ""
        if (cls._attributes.lookup head).isSome then
          some (cls._attributes.lookup head, .list parts)
        else
          match cls._relationships.lookup head with
          | some rel =>
            match getModelAttributeAux env fuel rel.class_name (pyJoinDot parts.tail) with
            | some (attr, _) => some (attr, .list parts)
            | none => none
          | none => some (none, .list parts)
      else
        some (none, .str attr_name)

/-- Function `get_model_attribute` (GridView.py lines 60-76). -/
def get_model_attribute (env : ModelEnv) (class_name attr_name : String) :
    Option (Option Attribute × AttrNameR) :=
  getModelAttributeAux env (attr_name.length + 1) class_name attr_name

/-- One column of a view config (`view_config['columns']`): the fields the
grid-assembly loop reads.  `row_action` models the truthiness of
`column.get('row_action', False)`. -/
structure ViewColumn where
  name : String
  label : String
  row_action : Bool := false
  width : Option Nat := none
  format : Option String := none
deriving DecidableEq

/-- One entry of the Syncfusion grid column list, restricted to the keys
the source writes. -/
structure GridColumn where
  field : Option String
  headerText : Option String
  type : Option String
  format : Option String
  displayAsCheckBox : Bool
  visible : Bool
  isPrimaryKey : Bool
  width : Option String
deriving DecidableEq

/-- The hidden primary-key column prepended first (GridView.py line 132). -/
def uidColumn : GridColumn :=
  { field := some "uid", headerText := some "UID", type := none, format := none,
    displayAsCheckBox := false, visible := false, isPrimaryKey := true, width := some "0px" }

/-- The checkbox-selection column inserted at the head when the Selection
mode is enabled (GridView.py line 208). -/
def checkboxColumn : GridColumn :=
  { field := none, headerText := none, type := some "checkbox", format := none,
    displayAsCheckBox := false, visible := true, isPrimaryKey := false, width := some "30" }

/-- Errors the grid-assembly loop can raise.  `noneFieldType` is the
`AttributeError` Python raises on `col_attr.field_type` when
`get_model_attribute` returned `None` for the attribute; `missingClass`
is the `AttributeError` from `getattr` on an unknown class name. -/
inductive BuildErr where
  | noneFieldType (field : String)
  | missingClass (field : String)
deriving DecidableEq

/-- Body of the per-column branch of the loop in `GridView.__init__`
(lines 148-165): resolve the column name, then build the Syncfusion
column dict from the resolved field type and the column overrides. -/
def buildGridColumn (env : ModelEnv) (model : String) (column : ViewColumn) :
    Except BuildErr GridColumn :=
  match get_model_attribute env model column.name with
  | some (some attr, _) =>
    .ok { field := some ((pySplitDot column.name).headD column.name),
          headerText := some column.label,
          type := some attr.field_type.GridType,
          format := some (column.format.getD attr.field_type.GridFormat),
          displayAsCheckBox := attr.field_type = FieldTypes.BOOLEAN,
          visible := true,
          isPrimaryKey := false,
          width := some (toString (column.width.getD 150)) }
  | some (none, _) => .error (.noneFieldType column.name)
  | none => .error (.missingClass column.name)

/-- The per-column iteration of the assembly loop in `GridView.__init__`:
columns flagged `row_action` are skipped (`continue`); otherwise each
column is built in order, stopping at the first resolution failure as the
raised Python exception would. -/
def buildGridColumnsAux (env : ModelEnv) (model : String) :
    List ViewColumn → Except BuildErr (List GridColumn)
  | [] => .ok []
  | c :: cs =>
    if c.row_action then buildGridColumnsAux env model cs
    else
      match buildGridColumn env model c with
      | .ok gc =>
        match buildGridColumnsAux env model cs with
        | .ok rest => .ok (gc :: rest)
        | .error e => .error e
      | .error e => .error e

/-- The column-assembly loop of `GridView.__init__` (lines 132-165): the
hidden uid primary-key column first, then one built column per
non-row-action view column. -/
def buildGridColumns (env : ModelEnv) (model : String) (columns : List ViewColumn) :
    Except BuildErr (List GridColumn) :=
  match buildGridColumnsAux env model columns with
  | .ok rest => .ok (uidColumn :: rest)
  | .error e => .error e

/-- The Selection-mode insertion (GridView.py lines 206-208): the checkbox
column goes to index 0 of the already-assembled list. -/
def gridConfigColumns (selection : Bool) (cols : List GridColumn) : List GridColumn :=
  if selection then checkboxColumn :: cols else cols

/-- A row-view held by the grid's data source: the primary-key `uid` plus
the displayed cells. -/
structure GridRowView (κ : Type) where
  uid : κ
  cells : List (String × String)
deriving DecidableEq

/-- A backing-store record, reduced to its id and named field values. -/
structure DataRow (κ : Type) where
  uid : κ
  fields : List (String × String)
deriving DecidableEq

/-- Modelled from the spec: `get_row_view` of the backing ORM (repository
code not under `src/`) converts a record into a row-view compatible with
the given column schema, keyed by the record's uid (spec sections 4.3 and
6). -/
def DataRow.get_row_view (r : DataRow κ) (columns : List ViewColumn) : GridRowView κ :=
  { uid := r.uid, cells := columns.map fun c => (c.name, (r.fields.lookup c.name).getD "") }

/-- Modelled from the spec: the grid widget's `addRecord` inserts the new
row at the top of the data source (spec section 4.3, "position: top"). -/
def gridAddRecord (rows : List (GridRowView κ)) (row : GridRowView κ) : List (GridRowView κ) :=
  row :: rows

/-- Modelled from the spec: the grid widget's `setRowData(key, row)`
replaces the row identified by the primary key in place (spec section
4.3). -/
def gridSetRowData [DecidableEq κ] (rows : List (GridRowView κ)) (key : κ)
    (row : GridRowView κ) : List (GridRowView κ) :=
  rows.map fun x => if x.uid = key then row else x

/-- Method `GridView.update_grid` (GridView.py lines 355-360). -/
def update_grid [DecidableEq κ] (rows : List (GridRowView κ)) (columns : List ViewColumn)
    (data_row : DataRow κ) (add_new : Bool) : List (GridRowView κ) :=
  let grid_row := data_row.get_row_view columns
  if add_new then gridAddRecord rows grid_row
  else gridSetRowData rows grid_row.uid grid_row

/-- Modelled from the spec: `grid_class.get(uid)` of the backing ORM
(repository code not under `src/`) — the stored record with that id, or
`None` (spec section 6). -/
def storeGet [DecidableEq κ] (store : List (DataRow κ)) (uid : κ) : Option (DataRow κ) :=
  store.find? fun r => r.uid == uid

/-- Modelled from the spec: `db_row.delete()` removes that record from the
backing store (spec section 6). -/
def storeDelete [DecidableEq κ] (store : List (DataRow κ)) (r : DataRow κ) : List (DataRow κ) :=
  store.erase r

/-- The delete branch of `GridView.grid_action_handler` (GridView.py lines
325-330): for each selected grid row, fetch the backing record by uid and
delete it; rows that no longer resolve are skipped. -/
def deleteSelectedRows [DecidableEq κ] (store : List (DataRow κ)) (selected : List κ) :
    List (DataRow κ) :=
  selected.foldl
    (fun st uid =>
      match storeGet st uid with
      | some db_row => storeDelete st db_row
      | none => st)
    store

/-! Theorems. -/

/-- Arithmetic helper: iterated floor division by positive divisors. -/
theorem int_ediv_ediv (t a b : Int) (ha : 0 < a) (hb : 0 < b) :
    (t.ediv a).ediv b = t.ediv (a * b) := by
  show t / a / b = t / (a * b)
  apply le_antisymm
  · rw [Int.le_ediv_iff_mul_le (mul_pos ha hb)]
    have h1 : (t.ediv a).ediv b * b ≤ t.ediv a :=
      (Int.le_ediv_iff_mul_le hb).mp le_rfl
    have h2 : (t.ediv a).ediv b * b * a ≤ t :=
      (Int.le_ediv_iff_mul_le ha).mp h1
    calc (t.ediv a).ediv b * (a * b) = (t.ediv a).ediv b * b * a := by ring
      _ ≤ t := h2
  · rw [Int.le_ediv_iff_mul_le hb, Int.le_ediv_iff_mul_le ha]
    calc t.ediv (a * b) * b * a = t.ediv (a * b) * (a * b) := by ring
      _ ≤ t := (Int.le_ediv_iff_mul_le (mul_pos ha hb)).mp le_rfl

/-- Claim C1, counterexample: on a `TextInput`-family control with no live
widget (the inherited `BaseInput.value` setter, FormInputs.py lines
104-107), setting the value does NOT store it — a subsequent read still
returns the old cached value, not the value just set. -/
theorem C1_counterexample :
    ((BaseInputS.valueSet (BaseInputS.init (some 1) true) (some 2)).valueGet).1 = some (1 : Nat) ∧
    ((BaseInputS.valueSet (BaseInputS.init (some 1) true) (some 2)).valueGet).1 ≠ some 2 := by
  decide

/-- Claim C1 (corrected): variants that override the value setter with a
caching one — `DropdownInput` is the cited instance — store v as the
cached value when no live widget exists, so a read before any widget
exists returns v, and push v into the widget once one exists; but the
base setter shared by Text/MultiLine/Number leaves the cache unchanged
when no widget exists (the set is lost), only pushing when mounted. -/
theorem C1_amended (α : Type) [DecidableEq α] :
    (∀ (s : DropdownS α) (v : Option α), s.control = none →
       ((s.valueSet v).valueGet).1 = v ∧ (s.valueSet v).cache = v) ∧
    (∀ (s : DropdownS α) (w : Widget α) (v : Option α), s.control = some w →
       (s.valueSet v).control = some { w with value := v } ∧ (s.valueSet v).cache = v) ∧
    (∀ (s : BaseInputS α) (v : Option α), s.control = none → s.valueSet v = s) ∧
    (∀ (s : BaseInputS α) (w : Widget α) (v : Option α), s.control = some w →
       (s.valueSet v).control = some { w with value := v }) := by
  refine ⟨?_, ?_, ?_, ?_⟩
  · rintro ⟨c, e, ctrl, vis⟩ v h
    simp only at h
    subst h
    simp [DropdownS.valueSet, DropdownS.valueGet]
  · rintro ⟨c, e, ctrl, vis⟩ w v h
    simp only at h
    subst h
    simp [DropdownS.valueSet]
  · rintro ⟨c, e, ctrl, vis⟩ v h
    simp only at h
    subst h
    simp [BaseInputS.valueSet]
  · rintro ⟨c, e, ctrl, vis⟩ w v h
    simp only at h
    subst h
    simp [BaseInputS.valueSet]

/-- Claim C1, witness: the amended statement at concrete dropdown and base
states. -/
theorem C1_witness :
    (((DropdownS.init (some 1) true (α := Nat)).valueSet (some 2)).valueGet).1 = some 2 ∧
    ((⟨none, true, some ⟨none, true⟩, false⟩ : DropdownS Nat).valueSet (some 3)).control =
      some ⟨some 3, true⟩ ∧
    (BaseInputS.init (some 1) true (α := Nat)).valueSet (some 2) =
      BaseInputS.init (some 1) true ∧
    ((⟨none, true, some ⟨none, true⟩, false⟩ : BaseInputS Nat).valueSet (some 5)).control =
      some ⟨some 5, true⟩ := by
  refine ⟨((C1_amended Nat).1 _ (some 2) rfl).1, ?_, (C1_amended Nat).2.2.1 _ (some 2) rfl, ?_⟩
  · exact ((C1_amended Nat).2.1 _ ⟨none, true⟩ (some 3) rfl).1
  · exact (C1_amended Nat).2.2.2 _ ⟨none, true⟩ (some 5) rfl

/-- Claim C2: `update_grid(record, isNew=True)` prepends exactly one new
row (the record converted through the column schema) and raises the row
count by one; `update_grid(record, isNew=False)` keeps the row count and
rewrites exactly the rows whose primary key `uid` equals the record's id,
leaving every other row unchanged. -/
theorem C2_update_grid (κ : Type) [DecidableEq κ] (rows : List (GridRowView κ))
    (columns : List ViewColumn) (r : DataRow κ) :
    update_grid rows columns r true = r.get_row_view columns :: rows ∧
    (update_grid rows columns r true).length = rows.length + 1 ∧
    update_grid rows columns r false =
      rows.map (fun x => if x.uid = r.uid then r.get_row_view columns else x) ∧
    (update_grid rows columns r false).length = rows.length := by
  refine ⟨rfl, ?_, rfl, ?_⟩
  · simp [update_grid, gridAddRecord]
  · simp [update_grid, gridSetRowData]

/-- Claim C6, counterexample: `destroy()` does not reset `visible`, so on
a control destroyed while still marked visible, a subsequent `show()` is a
no-op and does NOT recreate the widget. -/
theorem C6_counterexample :
    ((BaseInputS.destroy
        (⟨some 1, true, some ⟨some 1, true⟩, true⟩ : BaseInputS Nat)).show_).control = none ∧
    (BaseInputS.destroy
        (⟨some 1, true, some ⟨some 1, true⟩, true⟩ : BaseInputS Nat)).visible = true := by
  decide

/-- Claim C6 (corrected): `destroy()` always releases the widget handle
and is a no-op when none exists; and provided the control is hidden (not
marked visible), a subsequent `show()` recreates the widget and restores
the pending value and enabled flag. -/
theorem C6_amended (α : Type) [DecidableEq α] :
    (∀ s : BaseInputS α, (s.destroy).control = none) ∧
    (∀ s : BaseInputS α, s.control = none → s.destroy = s) ∧
    (∀ s : BaseInputS α, s.visible = false →
       ((s.destroy).show_).control = some ⟨s.cache, s.enabledCache⟩ ∧
       (((s.destroy).show_).valueGet).1 = s.cache ∧
       (((((s.destroy).show_).valueGet).2).enabledGet).1 = some s.enabledCache ∧
       ((s.destroy).show_).visible = true) := by
  refine ⟨?_, ?_, ?_⟩
  · rintro ⟨c, e, ctrl, vis⟩
    cases ctrl <;> simp [BaseInputS.destroy]
  · rintro ⟨c, e, ctrl, vis⟩ h
    simp only at h
    subst h
    simp [BaseInputS.destroy]
  · rintro ⟨c, e, ctrl, vis⟩ h
    simp only at h
    subst h
    cases ctrl <;>
      simp [BaseInputS.destroy, BaseInputS.show_, BaseInputS.createControl,
        BaseInputS.valueSet, BaseInputS.enabledSet, BaseInputS.valueGet,
        BaseInputS.enabledGet]

/-- Claim C6, witness: the amended statement at a concrete hidden state
with a live widget. -/
theorem C6_witness :
    ((⟨some 7, false, some ⟨some 1, true⟩, false⟩ : BaseInputS Nat).destroy).control = none ∧
    (((⟨some 7, false, some ⟨some 1, true⟩, false⟩ :
        BaseInputS Nat).destroy).show_).control = some ⟨some 7, false⟩ ∧
    ((((⟨some 7, false, some ⟨some 1, true⟩, false⟩ :
        BaseInputS Nat).destroy).show_).valueGet).1 = some 7 := by
  refine ⟨(C6_amended Nat).1 _, ?_, ?_⟩
  · exact ((C6_amended Nat).2.2 _ rfl).1
  · exact ((C6_amended Nat).2.2 _ rfl).2.1

/-- Claim C7: the `enabled` getter of a mounted checkbox evaluates
`not self.control.disbled` — a misspelling of `disabled`, so the read
property is always `undefined`/`None` and the getter returns `True`
regardless of the widget's actual `disabled` flag, diverging from the
documented negation; the setter half uses the correct spelling. -/
theorem C7_checkbox_enabled_bug (s : CheckboxInputS) (w : CheckWidget) (b : Bool)
    (h : s.control = some w) :
    (s.enabledGet).1 = some true ∧
    (s.enabledSet b).control = some { w with disabled := !b } ∧
    (w.disabled = true → (s.enabledGet).1 ≠ some (!w.disabled)) := by
  rcases s with ⟨c, e, ctrl, vis⟩
  simp only at h
  subst h
  refine ⟨?_, ?_, ?_⟩
  · simp [CheckboxInputS.enabledGet, CheckboxInputS.pyNot, CheckboxInputS.jsDisbled]
  · simp [CheckboxInputS.enabledSet]
  · intro hd
    simp [CheckboxInputS.enabledGet, CheckboxInputS.pyNot, CheckboxInputS.jsDisbled, hd]

/-- Claim C7, witness: a mounted checkbox whose widget is disabled still
reads back as enabled. -/
theorem C7_witness :
    ((⟨some true, true, some ⟨true, true⟩, true⟩ : CheckboxInputS).enabledGet).1 = some true ∧
    ((⟨some true, true, some ⟨true, true⟩, true⟩ : CheckboxInputS).enabledGet).1 ≠
      some (!(true : Bool)) := by
  refine ⟨(C7_checkbox_enabled_bug _ ⟨true, true⟩ true rfl).1, ?_⟩
  exact (C7_checkbox_enabled_bug _ ⟨true, true⟩ true rfl).2.2 rfl

/-- Claim C10: with no live widget the `enabled` getter falls through and
returns `None`, never the cached flag; the cached flag becomes observable
again once the control is shown (the base `show` seeds the fresh widget
from it). -/
theorem C10_enabled_unmounted (α : Type) [DecidableEq α] :
    (∀ s : BaseInputS α, s.control = none → (s.enabledGet).1 = none) ∧
    (∀ s : CheckboxInputS, s.control = none → (s.enabledGet).1 = none) ∧
    (∀ s : BaseInputS α, s.control = none → s.visible = false →
       ((s.show_).enabledGet).1 = some s.enabledCache) := by
  refine ⟨?_, ?_, ?_⟩
  · rintro ⟨c, e, ctrl, vis⟩ h
    simp only at h
    subst h
    simp [BaseInputS.enabledGet]
  · rintro ⟨c, e, ctrl, vis⟩ h
    simp only at h
    subst h
    simp [CheckboxInputS.enabledGet]
  · rintro ⟨c, e, ctrl, vis⟩ h hv
    simp only at h hv
    subst h
    subst hv
    simp [BaseInputS.show_, BaseInputS.createControl, BaseInputS.valueSet,
      BaseInputS.enabledSet, BaseInputS.enabledGet]

/-- Claim C10, witness: concrete unmounted controls read `enabled` as
`None`, and the cached flag resurfaces after `show`. -/
theorem C10_witness :
    ((BaseInputS.init (some 1) false (α := Nat)).enabledGet).1 = none ∧
    ((⟨some true, false, none, false⟩ : CheckboxInputS).enabledGet).1 = none ∧
    (((BaseInputS.init (some 1) false (α := Nat)).show_).enabledGet).1 = some false := by
  exact ⟨(C10_enabled_unmounted Nat).1 _ rfl, (C10_enabled_unmounted Nat).2.1 _ rfl,
    (C10_enabled_unmounted Nat).2.2 _ rfl rfl⟩

/-- Claim C4, counterexample: resolving a field whose segment names
neither an attribute, a computed attribute, nor a relationship does not
raise any error — `get_model_attribute` returns a result with `attr`
equal to `None`, and the column-assembly step in `GridView.__init__` then
fails with the `AttributeError` of reading `field_type` on `None`, not
with an `UnresolvedFieldError` (which exists nowhere in the code). -/
theorem C4_counterexample :
    get_model_attribute
        [("Person", ⟨[("name", ⟨⟨"string", "string", ""⟩⟩)], [], [], "name"⟩)]
        "Person" "bogus" = some (none, .str "bogus") ∧
    buildGridColumn
        [("Person", ⟨[("name", ⟨⟨"string", "string", ""⟩⟩)], [], [], "name"⟩)]
        "Person" { name := "bogus", label := "Bogus" } =
      .error (.noneFieldType "bogus") := by
  exact ⟨by decide, by rfl⟩

/-- Claim C4 (corrected): when a field path's first segment (equivalently
the whole name, when it is undotted) names neither an attribute, a
computed attribute, nor a relationship of the model in scope,
`get_model_attribute` silently returns `None` for the attribute — the
recursive case reduces to this on the related model — and the grid-column
construction that consumes it fails with an `AttributeError` on the
`None` result, never with an `UnresolvedFieldError`. -/
theorem C4_amended (env : ModelEnv) (class_name attr_name : String) (cls : ModelClass)
    (h1 : env.lookup class_name = some cls)
    (h2 : attr_name ≠ "_title")
    (h3 : cls._attributes.lookup attr_name = none)
    (h4 : cls._computes.lookup attr_name = none)
    (h5 : cls._attributes.lookup ((pySplitDot attr_name).headD "") = none)
    (h6 : cls._relationships.lookup ((pySplitDot attr_name).headD "") = none) :
    get_model_attribute env class_name attr_name =
      some (none, if pyContainsDot attr_name then .list (pySplitDot attr_name)
                  else .str attr_name) ∧
    ∀ lbl, buildGridColumn env class_name { name := attr_name, label := lbl } =
      .error (.noneFieldType attr_name) := by
  have hres : get_model_attribute env class_name attr_name =
      some (none, if pyContainsDot attr_name then AttrNameR.list (pySplitDot attr_name)
                  else AttrNameR.str attr_name) := by
    cases hdot : pyContainsDot attr_name <;>
      simp only [get_model_attribute, getModelAttributeAux, h1, if_neg h2, h3, h4, h5, h6,
        hdot, Option.isSome_none, Bool.false_eq_true, if_false, ite_false, ite_true,
        Bool.true_eq_false]
  refine ⟨hres, fun lbl => ?_⟩
  simp [buildGridColumn, hres]

/-- Claim C4, witness: the amended statement at a concrete one-attribute
model and the unknown field name. -/
theorem C4_witness :
    get_model_attribute
        [("Person", ⟨[("name", ⟨⟨"string", "string", ""⟩⟩)], [], [], "name"⟩)]
        "Person" "ghost" =
      some (none, if pyContainsDot "ghost" then .list (pySplitDot "ghost")
                  else .str "ghost") ∧
    buildGridColumn
        [("Person", ⟨[("name", ⟨⟨"string", "string", ""⟩⟩)], [], [], "name"⟩)]
        "Person" { name := "ghost", label := "Ghost" } =
      .error (.noneFieldType "ghost") := by
  have h := C4_amended
    [("Person", ⟨[("name", ⟨⟨"string", "string", ""⟩⟩)], [], [], "name"⟩)]
    "Person" "ghost"
    ⟨[("name", ⟨⟨"string", "string", ""⟩⟩)], [], [], "name"⟩
    (by decide) (by decide) (by decide) (by decide) (by decide) (by decide)
  exact ⟨h.1, h.2 "Ghost"⟩

/-- Claim C8, counterexample: on the write path of `TimeInput.value`, the
widget receives `int(strftime('%s')) * 1000` — setting 10:30:45 pushes
epoch 37845000 ms, which still contains the 45 seconds (it is not a whole
number of minutes), so "seconds are dropped on both read and write" fails
on the write path. -/
theorem C8_counterexample :
    ((⟨none, true, some ⟨none, true⟩, true⟩ : TimeInputS).valueSet
        (some (.py 37845000000))).control = some ⟨some 37845000, true⟩ ∧
    ¬ ((60000 : Int) ∣ 37845000) := by
  refine ⟨rfl, ?_⟩
  decide

/-- Claim C8 (corrected): for a mounted Time control, setting a datetime
value pushes the whole-second timestamp — seconds included — into the
widget; reading back drops the seconds and yields a value anchored to the
epoch day 1970-01-01 with only hour and minute significant (nonnegative,
below one day, a whole number of minutes). -/
theorem C8_amended (s : TimeInputS) (w : Widget Int) (t : Int)
    (h : s.control = some w) :
    ((s.valueSet (some (.py t))).control =
       some { w with value := some (t.ediv 1000000 * 1000) }) ∧
    (((s.valueSet (some (.py t))).valueGet).1 =
       some (((t.ediv 3600000000).emod 24 * 3600 +
              (t.ediv 60000000).emod 60 * 60) * 1000000)) ∧
    (∀ v, ((s.valueSet (some (.py t))).valueGet).1 = some v →
       (60000000 : Int) ∣ v ∧ 0 ≤ v ∧ v < 86400000000) := by
  rcases s with ⟨c, e, ctrl, vis⟩
  simp only at h
  subst h
  have h1000 : (0 : Int) < 1000 := by norm_num
  have e1 : (t.ediv 1000000 * 1000).ediv 3600000 = t.ediv 3600000000 := by
    calc (t.ediv 1000000 * 1000).ediv 3600000
        = (1000 * t.ediv 1000000).ediv (1000 * 3600) := by rw [mul_comm]; norm_num
      _ = (t.ediv 1000000).ediv 3600 := Int.mul_ediv_mul_of_pos _ _ h1000
      _ = t.ediv 3600000000 := by
          rw [int_ediv_ediv t 1000000 3600 (by norm_num) (by norm_num)]; norm_num
  have e2 : (t.ediv 1000000 * 1000).ediv 60000 = t.ediv 60000000 := by
    calc (t.ediv 1000000 * 1000).ediv 60000
        = (1000 * t.ediv 1000000).ediv (1000 * 60) := by rw [mul_comm]; norm_num
      _ = (t.ediv 1000000).ediv 60 := Int.mul_ediv_mul_of_pos _ _ h1000
      _ = t.ediv 60000000 := by
          rw [int_ediv_ediv t 1000000 60 (by norm_num) (by norm_num)]; norm_num
  have harith : TimeInputS.timeOfEpochMs (t.ediv 1000000 * 1000) =
      ((t.ediv 3600000000).emod 24 * 3600 + (t.ediv 60000000).emod 60 * 60) * 1000000 := by
    unfold TimeInputS.timeOfEpochMs
    rw [e1, e2]
  have ha0 : 0 ≤ (t.ediv 3600000000).emod 24 := Int.emod_nonneg _ (by norm_num)
  have ha1 : (t.ediv 3600000000).emod 24 < 24 := Int.emod_lt_of_pos _ (by norm_num)
  have hb0 : 0 ≤ (t.ediv 60000000).emod 60 := Int.emod_nonneg _ (by norm_num)
  have hb1 : (t.ediv 60000000).emod 60 < 60 := Int.emod_lt_of_pos _ (by norm_num)
  refine ⟨rfl, ?_, ?_⟩
  · simp [TimeInputS.valueSet, TimeInputS.valueGet, TimeInputS.epochMsOfUs, harith]
  · intro v hv
    simp [TimeInputS.valueSet, TimeInputS.valueGet, TimeInputS.epochMsOfUs, harith] at hv
    subst hv
    refine ⟨⟨(t.ediv 3600000000).emod 24 * 60 + (t.ediv 60000000).emod 60, by ring⟩, ?_, ?_⟩ <;>
      nlinarith [ha0, ha1, hb0, hb1]

/-- Claim C8, witness: the amended statement at 10:30:45 — the widget gets
37845000 ms (seconds kept), the read-back is 10:30:00 anchored on the
epoch day. -/
theorem C8_witness :
    ((⟨none, true, some ⟨none, true⟩, true⟩ : TimeInputS).valueSet
        (some (.py 37845000000))).control = some ⟨some 37845000, true⟩ ∧
    (((⟨none, true, some ⟨none, true⟩, true⟩ : TimeInputS).valueSet
        (some (.py 37845000000))).valueGet).1 = some 37800000000 := by
  have h := C8_amended ⟨none, true, some ⟨none, true⟩, true⟩ ⟨none, true⟩ 37845000000 rfl
  refine ⟨?_, ?_⟩
  · have := h.1
    simpa using this
  · have := h.2.1
    simpa using this

/-- Helper: the Date conversions cancel — a midnight epoch taken back to a
calendar day gives the same day. -/
theorem dateOfEpochMs_epochMsOfDate (d : Int) :
    DateInputS.dateOfEpochMs (DateInputS.epochMsOfDate d) = d := by
  show d * 86400000 / 86400000 = d
  exact Int.mul_ediv_cancel d (by norm_num)

/-- Helper: the DateTime write-then-read path is the identity on
whole-second widget epochs. -/
theorem dt_epochMs_usOfEpochMs (ms : Int) (h : (1000 : Int) ∣ ms) :
    DateTimeInputS.epochMsOfUs (DateTimeInputS.usOfEpochMs ms) = ms := by
  show ms * 1000 / 1000000 * 1000 = ms
  have h1 : ms * 1000 / 1000000 = ms / 1000 := by
    calc ms * 1000 / 1000000 = 1000 * ms / (1000 * 1000) := by rw [mul_comm]; norm_num
      _ = ms / 1000 := Int.mul_ediv_mul_of_pos _ _ (by norm_num)
  rw [h1]
  exact Int.ediv_mul_cancel h

/-- Helper: the DateTime read-then-write-then-read path is the identity on
whole-second domain values. -/
theorem dt_us_roundtrip (us : Int) (h : (1000000 : Int) ∣ us) :
    DateTimeInputS.usOfEpochMs (DateTimeInputS.epochMsOfUs us) = us := by
  show us / 1000000 * 1000 * 1000 = us
  rw [mul_assoc]
  norm_num
  exact Int.ediv_mul_cancel h

/-- Helper: pushing an hour-minute anchored value through the Time write
path gives its whole-second widget epoch. -/
theorem time_epochMsOfUs_anchor (x : Int) :
    TimeInputS.epochMsOfUs (x * 1000000) = x * 1000 := by
  show x * 1000000 / 1000000 * 1000 = x * 1000
  rw [Int.mul_ediv_cancel x (by norm_num)]

/-- Helper: reading a whole-second widget epoch that encodes hour h and
minute m in range reproduces the anchored hour-minute value. -/
theorem time_anchor_roundtrip (h m : Int) (h0 : 0 ≤ h) (h1 : h < 24)
    (m0 : 0 ≤ m) (m1 : m < 60) :
    TimeInputS.timeOfEpochMs ((h * 3600 + m * 60) * 1000) =
      (h * 3600 + m * 60) * 1000000 := by
  show ((h * 3600 + m * 60) * 1000 / 3600000 % 24 * 3600 +
        (h * 3600 + m * 60) * 1000 / 60000 % 60 * 60) * 1000000 =
      (h * 3600 + m * 60) * 1000000
  omega

/-- Helper: a `timeOfEpochMs` value always decomposes into an in-range
hour and minute. -/
theorem timeOfEpochMs_decompose (ms : Int) :
    ∃ h m, 0 ≤ h ∧ h < 24 ∧ 0 ≤ m ∧ m < 60 ∧
      TimeInputS.timeOfEpochMs ms = (h * 3600 + m * 60) * 1000000 := by
  refine ⟨(ms.ediv 3600000).emod 24, (ms.ediv 60000).emod 60,
    Int.emod_nonneg _ (by norm_num), Int.emod_lt_of_pos _ (by norm_num),
    Int.emod_nonneg _ (by norm_num), Int.emod_lt_of_pos _ (by norm_num), rfl⟩

/-- Helper: the radio scan returns its accumulator unchanged when every
checked option carries that same value. -/
theorem radioScan_inv (α : Type) [DecidableEq α] :
    ∀ (l : List (RadioOpt α)) (v : Option α),
      (∀ o ∈ l, ∀ rb, o.control = some rb → rb.checked = true → some o.val = v) →
      RadioInputS.radioScan v l = v := by
  intro l
  induction l with
  | nil => intro v _; rfl
  | cons o os ih =>
    intro v hinv
    have hstep : (match o.control with
        | some rb => if rb.checked then some o.val else v
        | none => v) = v := by
      cases hc : o.control with
      | none => rfl
      | some rb =>
        show (if rb.checked = true then some o.val else v) = v
        cases hk : rb.checked
        · simp
        · simpa using hinv o (List.mem_cons_self o os) rb hc hk
    show RadioInputS.radioScan
        (match o.control with
         | some rb => if rb.checked then some o.val else v
         | none => v) os = v
    rw [hstep]
    exact ih v fun o' ho' => hinv o' (List.mem_cons_of_mem o ho')

/-- Helper: after `create_control` rebuilt an option's widget unchecked
and the value setter ran (twice — once inside `create_control`, once in
`show`), a checked widget can only sit on an option whose value is the
set one. -/
theorem radio_double_set_inv (α : Type) [DecidableEq α] (v : Option α) (o : RadioOpt α) :
    ∀ rb, (RadioInputS.setOption v (RadioInputS.setOption v
        (RadioInputS.freshOption o))).control = some rb →
      rb.checked = true →
      some (RadioInputS.setOption v (RadioInputS.setOption v
        (RadioInputS.freshOption o))).val = v := by
  intro rb hcb hck
  by_cases hov : some o.val = v
  · simp [RadioInputS.setOption, RadioInputS.freshOption, hov]
  · simp [RadioInputS.setOption, RadioInputS.freshOption, hov] at hcb
    rw [← hcb] at hck
    cases hck

/-- Helper: any column built from the view schema has
`isPrimaryKey := false`. -/
theorem buildGridColumn_not_primary (env : ModelEnv) (model : String)
    (col : ViewColumn) (gc : GridColumn)
    (h : buildGridColumn env model col = .ok gc) : gc.isPrimaryKey = false := by
  unfold buildGridColumn at h
  split at h
  · cases h; rfl
  · cases h
  · cases h

/-- Helper: every column produced by the assembly loop (uid column aside)
has `isPrimaryKey := false`. -/
theorem buildGridColumnsAux_not_primary (env : ModelEnv) (model : String) :
    ∀ (l : List ViewColumn) (out : List GridColumn),
      buildGridColumnsAux env model l = .ok out →
      ∀ c ∈ out, c.isPrimaryKey = false := by
  intro l
  induction l with
  | nil =>
    intro out h c hc
    simp [buildGridColumnsAux] at h
    subst h
    simp at hc
  | cons a l ih =>
    intro out h c hc
    unfold buildGridColumnsAux at h
    by_cases hra : a.row_action = true
    · rw [if_pos hra] at h
      exact ih out h c hc
    · rw [if_neg hra] at h
      cases ha : buildGridColumn env model a with
      | error e => rw [ha] at h; cases h
      | ok gc =>
        rw [ha] at h
        cases hl : buildGridColumnsAux env model l with
        | error e => rw [hl] at h; cases h
        | ok rest =>
          rw [hl] at h
          cases h
          rcases List.mem_cons.mp hc with hc | hc
          · subst hc
            exact buildGridColumn_not_primary env model a c ha
          · exact ih rest hl c hc

/-- Claim C9: whatever the view configuration (explicit, loaded from a
stored view, or auto-derived — all feed the same assembly loop), the
constructed grid column list is the hidden `uid` primary-key column
(width `0px`, not visible) followed by the schema-derived columns, none
of which is a primary key; the Selection-mode checkbox column, when
inserted, goes in front but is not a primary key either, so the full
column list always contains exactly one hidden uid primary-key column,
placed before all schema-derived columns. -/
theorem C9_uid_primary_key (env : ModelEnv) (model : String) (columns : List ViewColumn)
    (selection : Bool) (cols : List GridColumn)
    (h : buildGridColumns env model columns = .ok cols) :
    (∃ derived, cols = uidColumn :: derived ∧ ∀ c ∈ derived, c.isPrimaryKey = false) ∧
    (gridConfigColumns selection cols).countP
        (fun c => c.field == some "uid" && c.isPrimaryKey && !c.visible &&
          c.width == some "0px") = 1 := by
  unfold buildGridColumns at h
  cases haux : buildGridColumnsAux env model columns with
  | error e => rw [haux] at h; cases h
  | ok rest =>
    rw [haux] at h
    cases h
    have hnp := buildGridColumnsAux_not_primary env model columns rest haux
    have hzero : rest.countP
        (fun c => c.field == some "uid" && c.isPrimaryKey && !c.visible &&
          c.width == some "0px") = 0 := by
      rw [List.countP_eq_zero]
      intro c hc
      simp [hnp c hc]
    refine ⟨⟨rest, rfl, hnp⟩, ?_⟩
    cases selection <;>
      simp [gridConfigColumns, List.countP_cons, hzero, uidColumn, checkboxColumn]

/-- Claim C9, witness: a concrete one-attribute model with Selection mode
enabled. -/
theorem C9_witness :
    (∃ derived,
        [uidColumn, (⟨some "name", some "Name", some "string", some "", false, true,
          false, some "150"⟩ : GridColumn)] = uidColumn :: derived ∧
        ∀ c ∈ derived, c.isPrimaryKey = false) ∧
    (gridConfigColumns true
        [uidColumn, (⟨some "name", some "Name", some "string", some "", false, true,
          false, some "150"⟩ : GridColumn)]).countP
        (fun c => c.field == some "uid" && c.isPrimaryKey && !c.visible &&
          c.width == some "0px") = 1 := by
  exact C9_uid_primary_key
    [("Person", ⟨[("name", ⟨⟨"string", "string", ""⟩⟩)], [], [], "name"⟩)]
    "Person" [⟨"name", "Name", false, none, none⟩] true
    [uidColumn, ⟨some "name", some "Name", some "string", some "", false, true,
      false, some "150"⟩]
    (by rfl)

/-- Helper: erasing the record found by uid equals filtering that uid out,
when the store's uids are distinct. -/
theorem erase_found_eq_filter (κ : Type) [DecidableEq κ] :
    ∀ (store : List (DataRow κ)) (u : κ) (r : DataRow κ),
      (store.map (·.uid)).Nodup →
      store.find? (fun x => x.uid == u) = some r →
      store.erase r = store.filter (fun x => !(x.uid == u)) := by
  intro store
  induction store with
  | nil => intro u r _ hf; simp at hf
  | cons a l ih =>
    intro u r hnd hf
    have hnd' : (∀ x ∈ l, ¬ x.uid = a.uid) ∧ (l.map (fun x => x.uid)).Nodup := by
      simpa using hnd
    obtain ⟨hna, hndl⟩ := hnd'
    by_cases ha : (a.uid == u) = true
    · rw [List.find?_cons] at hf
      simp only [ha, Option.some.injEq] at hf
      subst hf
      rw [List.erase_cons_head a l]
      have hfl : List.filter (fun x => !(x.uid == u)) l = l := by
        apply List.filter_eq_self.mpr
        intro x hx
        have hau : a.uid = u := eq_of_beq ha
        have hxu : (x.uid == u) = false := by
          rw [← hau]
          exact beq_eq_false_iff_ne.mpr (hna x hx)
        simp [hxu]
      simp [List.filter_cons, ha, hfl]
    · have ha' : (a.uid == u) = false := by simpa using ha
      rw [List.find?_cons] at hf
      simp only [ha'] at hf
      have hru : (r.uid == u) = true := by
        have := List.find?_some hf
        simpa using this
      have hner : ¬(a == r) = true := by
        intro hab
        have he : a = r := eq_of_beq hab
        rw [he, hru] at ha'
        cases ha'
      rw [List.erase_cons_tail hner]
      simp [List.filter_cons, ha', ih u r hndl hf]

/-- Claim C5: the delete-completion handler walks the selected rows,
deletes through the backing model each one whose id still resolves, and
silently skips the rest — it always completes, and the resulting store is
the original minus exactly the selected uids. -/
theorem C5_delete_skips_missing (κ : Type) [DecidableEq κ]
    (store : List (DataRow κ)) (selected : List κ)
    (h : (store.map (·.uid)).Nodup) :
    deleteSelectedRows store selected =
      store.filter (fun r => !(selected.contains r.uid)) := by
  induction selected generalizing store with
  | nil => simp [deleteSelectedRows]
  | cons u us ih =>
    cases hf : storeGet store u with
    | some r =>
      have hstep : deleteSelectedRows store (u :: us) =
          deleteSelectedRows (storeDelete store r) us := by
        simp only [deleteSelectedRows, List.foldl_cons, hf]
      have herase : storeDelete store r = store.filter (fun x => !(x.uid == u)) :=
        erase_found_eq_filter κ store u r h hf
      have hnd2 : ((store.filter (fun x => !(x.uid == u))).map (fun x => x.uid)).Nodup :=
        List.Nodup.sublist ((List.filter_sublist store).map _) h
      rw [hstep, herase, ih _ hnd2, List.filter_filter]
      refine List.filter_congr ?_
      intro x _
      simp only [List.contains_cons]
      cases hxu : (x.uid == u) <;> simp [hxu]
    | none =>
      have hstep : deleteSelectedRows store (u :: us) = deleteSelectedRows store us := by
        simp only [deleteSelectedRows, List.foldl_cons, hf]
      rw [hstep, ih _ h]
      refine List.filter_congr ?_
      intro x hx
      have hxu : (x.uid == u) = false := by
        have := List.find?_eq_none.mp hf x hx
        simpa [storeGet] using this
      have hne : ¬ x.uid = u := beq_eq_false_iff_ne.mp hxu
      simp [List.contains_cons, hxu, hne]

/-- Claim C5, witness: a three-record store where one selected uid (42) no
longer resolves — the two valid rows are deleted, the rest kept, nothing
raised. -/
theorem C5_witness :
    deleteSelectedRows
        [(⟨1, [("name", "a")]⟩ : DataRow Nat), ⟨2, [("name", "b")]⟩, ⟨3, [("name", "c")]⟩]
        [1, 42, 3] =
      [(⟨1, [("name", "a")]⟩ : DataRow Nat), ⟨2, [("name", "b")]⟩,
        ⟨3, [("name", "c")]⟩].filter (fun r => !([1, 42, 3].contains r.uid)) := by
  exact C5_delete_skips_missing Nat _ _ (by decide)

/-- Claim C3, counterexample: `hide(); show()` does not preserve the read
value on every reachable visible state.  A single-select Lookup whose
cached option is absent from the held option list — reachable through the
public API alone, because the Lookup value setter never writes `_value`:
construct with an off-list initial value, `show()`, then set
`value = None` (clearing the widget but not the cache) — reads that
option back before `hide(); show()` and `None` after: `show` pushes the
off-list uid and `getDataByValue` resolves nothing.  Likewise a DateTime
control whose widget value was cleared while the cache holds a sub-second
datetime (0.5 s) reads the full-precision cache before and the truncated
value (0) after, and a Time control in the same shape with a 10:30:45
cache reads 10:30:00 after. -/
theorem C3_counterexample :
    ((⟨some ⟨99, "zz"⟩, true, [⟨1, "a"⟩], some ⟨none, [⟨1, "a"⟩], true⟩, true⟩ :
        LookupInputS Nat).valueGet.1 = some ⟨99, "zz"⟩ ∧
     (⟨some ⟨99, "zz"⟩, true, [⟨1, "a"⟩], some ⟨none, [⟨1, "a"⟩], true⟩, true⟩ :
        LookupInputS Nat).valueGet.2.enabledGet.2.hide.show_.valueGet.1 = none) ∧
    ((⟨some 500000, true, some ⟨none, true⟩, true⟩ :
        DateTimeInputS).valueGet.1 = some 500000 ∧
     (⟨some 500000, true, some ⟨none, true⟩, true⟩ :
        DateTimeInputS).valueGet.2.enabledGet.2.hide.show_.valueGet.1 = some 0) ∧
    ((⟨some 37845000000, true, some ⟨none, true⟩, true⟩ :
        TimeInputS).valueGet.1 = some 37845000000 ∧
     (⟨some 37845000000, true, some ⟨none, true⟩, true⟩ :
        TimeInputS).valueGet.2.enabledGet.2.hide.show_.valueGet.1 = some 37800000000) := by
  decide

/-- Claim C3 (corrected): for every embedded variant — base
Text/MultiLine/Number behaviour, Date, DateTime, Time, Checkbox,
RadioGroup, Dropdown, single-select Lookup, Signature, FileUpload,
InlineMessage — a visible control whose `value` reads v and whose
`enabled` property reads e still reads v and e after `hide()` then
`show()`, and is visible again, PROVIDED the states excluded by the
counterexample are ruled out: the Lookup's cached option resolves in the
held option list, and a DateTime (resp. Time) cache facing an empty
widget value is whole-second (resp. hour-minute anchored).  Without
those provisos the property fails as `C3_counterexample` shows. -/
theorem C3_hide_show_preserves
    (α : Type) [DecidableEq α] [Inhabited α] (κ : Type) [DecidableEq κ]
    (sb : BaseInputS α) (wb : Widget α)
    (hb1 : sb.visible = true) (hb2 : sb.control = some wb)
    (sd : DateInputS) (wd : Widget Int)
    (hd1 : sd.visible = true) (hd2 : sd.control = some wd)
    (sdt : DateTimeInputS) (wdt : Widget Int)
    (hdt1 : sdt.visible = true) (hdt2 : sdt.control = some wdt)
    (hdt3 : ∀ ms, wdt.value = some ms → (1000 : Int) ∣ ms)
    (hdt4 : wdt.value = none → ∀ us, sdt.cache = some us → (1000000 : Int) ∣ us)
    (st : TimeInputS) (wt : Widget Int)
    (ht1 : st.visible = true) (ht2 : st.control = some wt)
    (ht3 : wt.value = none → ∀ us, st.cache = some us →
      ∃ hh mm, 0 ≤ hh ∧ hh < 24 ∧ 0 ≤ mm ∧ mm < 60 ∧
        us = (hh * 3600 + mm * 60) * 1000000)
    (sc : CheckboxInputS) (wc : CheckWidget)
    (hc1 : sc.visible = true) (hc2 : sc.control = some wc)
    (sr : RadioInputS α) (hr1 : sr.visible = true)
    (sdd : DropdownS α) (wdd : Widget α)
    (hdd1 : sdd.visible = true) (hdd2 : sdd.control = some wdd)
    (sl : LookupInputS κ) (wl : LookupWidget κ)
    (hl1 : sl.visible = true) (hl2 : sl.control = some wl)
    (hl3 : ∀ it, sl.cache = some it →
      wl.dataSource.find? (fun o => o.uid = it.uid) = some it)
    (ss : SignatureInputS α) (ws : SigWidget α)
    (hs1 : ss.visible = true) (hs2 : ss.control = some ws)
    (su : UploadInputS α) (wu : UploadWidget)
    (hu1 : su.visible = true) (hu2 : su.control = some wu)
    (sm : InlineMessageS α) (hm1 : sm.visible = true) :
    (let s3 := (((sb.valueGet).2.enabledGet).2.hide).show_
     s3.visible = true ∧ (s3.valueGet).1 = (sb.valueGet).1 ∧
       ((s3.valueGet).2.enabledGet).1 = ((sb.valueGet).2.enabledGet).1) ∧
    (let s3 := (((sd.valueGet).2.enabledGet).2.hide).show_
     s3.visible = true ∧ (s3.valueGet).1 = (sd.valueGet).1 ∧
       ((s3.valueGet).2.enabledGet).1 = ((sd.valueGet).2.enabledGet).1) ∧
    (let s3 := (((sdt.valueGet).2.enabledGet).2.hide).show_
     s3.visible = true ∧ (s3.valueGet).1 = (sdt.valueGet).1 ∧
       ((s3.valueGet).2.enabledGet).1 = ((sdt.valueGet).2.enabledGet).1) ∧
    (let s3 := (((st.valueGet).2.enabledGet).2.hide).show_
     s3.visible = true ∧ (s3.valueGet).1 = (st.valueGet).1 ∧
       ((s3.valueGet).2.enabledGet).1 = ((st.valueGet).2.enabledGet).1) ∧
    (let s3 := (((sc.valueGet).2.enabledGet).2.hide).show_
     s3.visible = true ∧ (s3.valueGet).1 = (sc.valueGet).1 ∧
       ((s3.valueGet).2.enabledGet).1 = ((sc.valueGet).2.enabledGet).1) ∧
    (let s3 := (((sr.valueGet).2.enabledGet).2.hide).show_
     s3.visible = true ∧ (s3.valueGet).1 = (sr.valueGet).1 ∧
       ((s3.valueGet).2.enabledGet).1 = ((sr.valueGet).2.enabledGet).1) ∧
    (let s3 := (((sdd.valueGet).2.enabledGet).2.hide).show_
     s3.visible = true ∧ (s3.valueGet).1 = (sdd.valueGet).1 ∧
       ((s3.valueGet).2.enabledGet).1 = ((sdd.valueGet).2.enabledGet).1) ∧
    (let s3 := (((sl.valueGet).2.enabledGet).2.hide).show_
     s3.visible = true ∧ (s3.valueGet).1 = (sl.valueGet).1 ∧
       ((s3.valueGet).2.enabledGet).1 = ((sl.valueGet).2.enabledGet).1) ∧
    (let s3 := (((ss.valueGet).2.enabledGet).2.hide).show_
     s3.visible = true ∧ (s3.valueGet).1 = (ss.valueGet).1 ∧
       ((s3.valueGet).2.enabledGet).1 = ((ss.valueGet).2.enabledGet).1) ∧
    (let s3 := (((su.valueGet).2.enabledGet).2.hide).show_
     s3.visible = true ∧ (s3.valueGet).1 = (su.valueGet).1 ∧
       ((s3.valueGet).2.enabledGet).1 = ((su.valueGet).2.enabledGet).1) ∧
    (let s3 := (((sm.valueGet).2.enabledGet).2.hide).show_
     s3.visible = true ∧ (s3.valueGet).1 = (sm.valueGet).1 ∧
       ((s3.valueGet).2.enabledGet).1 = ((sm.valueGet).2.enabledGet).1) := by
  refine ⟨?_, ?_, ?_, ?_, ?_, ?_, ?_, ?_, ?_, ?_, ?_⟩
  · -- base (Text / MultiLine / Number)
    rcases sb with ⟨c, e, ctrl, vis⟩
    rcases wb with ⟨wv, we⟩
    simp only at hb1 hb2
    subst hb1; subst hb2
    simp [BaseInputS.valueGet, BaseInputS.enabledGet, BaseInputS.hide, BaseInputS.show_,
      BaseInputS.valueSet, BaseInputS.enabledSet, BaseInputS.createControl]
  · -- Date
    rcases sd with ⟨c, e, ctrl, vis⟩
    rcases wd with ⟨wv, we⟩
    simp only at hd1 hd2
    subst hd1; subst hd2
    cases wv with
    | some ms =>
      simp [DateInputS.valueGet, DateInputS.enabledGet, DateInputS.hide, DateInputS.show_,
        DateInputS.valueSet, DateInputS.enabledSet, DateInputS.createControl,
        dateOfEpochMs_epochMsOfDate]
    | none =>
      cases c with
      | none =>
        simp [DateInputS.valueGet, DateInputS.enabledGet, DateInputS.hide, DateInputS.show_,
          DateInputS.valueSet, DateInputS.enabledSet, DateInputS.createControl]
      | some d =>
        simp [DateInputS.valueGet, DateInputS.enabledGet, DateInputS.hide, DateInputS.show_,
          DateInputS.valueSet, DateInputS.enabledSet, DateInputS.createControl,
          dateOfEpochMs_epochMsOfDate]
  · -- DateTime
    rcases sdt with ⟨c, e, ctrl, vis⟩
    rcases wdt with ⟨wv, we⟩
    simp only at hdt1 hdt2 hdt3 hdt4
    subst hdt1; subst hdt2
    cases wv with
    | some ms =>
      have hdvd := hdt3 ms rfl
      simp [DateTimeInputS.valueGet, DateTimeInputS.enabledGet, DateTimeInputS.hide,
        DateTimeInputS.show_, DateTimeInputS.valueSet, DateTimeInputS.enabledSet,
        DateTimeInputS.createControl, dt_epochMs_usOfEpochMs ms hdvd]
    | none =>
      cases c with
      | none =>
        simp [DateTimeInputS.valueGet, DateTimeInputS.enabledGet, DateTimeInputS.hide,
          DateTimeInputS.show_, DateTimeInputS.valueSet, DateTimeInputS.enabledSet,
          DateTimeInputS.createControl]
      | some us =>
        have hus := hdt4 rfl us rfl
        simp [DateTimeInputS.valueGet, DateTimeInputS.enabledGet, DateTimeInputS.hide,
          DateTimeInputS.show_, DateTimeInputS.valueSet, DateTimeInputS.enabledSet,
          DateTimeInputS.createControl, dt_us_roundtrip us hus]
  · -- Time
    rcases st with ⟨c, e, ctrl, vis⟩
    rcases wt with ⟨wv, we⟩
    simp only at ht1 ht2 ht3
    subst ht1; subst ht2
    cases wv with
    | some ms =>
      obtain ⟨hh, mm, b1, b2, b3, b4, heq⟩ := timeOfEpochMs_decompose ms
      simp [TimeInputS.valueGet, TimeInputS.enabledGet, TimeInputS.hide, TimeInputS.show_,
        TimeInputS.valueSet, TimeInputS.enabledSet, TimeInputS.createControl, heq,
        time_epochMsOfUs_anchor, time_anchor_roundtrip hh mm b1 b2 b3 b4]
    | none =>
      cases c with
      | none =>
        simp [TimeInputS.valueGet, TimeInputS.enabledGet, TimeInputS.hide, TimeInputS.show_,
          TimeInputS.valueSet, TimeInputS.enabledSet, TimeInputS.createControl]
      | some us =>
        obtain ⟨hh, mm, b1, b2, b3, b4, heq⟩ := ht3 rfl us rfl
        subst heq
        simp [TimeInputS.valueGet, TimeInputS.enabledGet, TimeInputS.hide, TimeInputS.show_,
          TimeInputS.valueSet, TimeInputS.enabledSet, TimeInputS.createControl,
          time_epochMsOfUs_anchor, time_anchor_roundtrip hh mm b1 b2 b3 b4]
  · -- Checkbox
    rcases sc with ⟨c, e, ctrl, vis⟩
    rcases wc with ⟨ck, dis⟩
    simp only at hc1 hc2
    subst hc1; subst hc2
    cases ck <;>
      simp [CheckboxInputS.valueGet, CheckboxInputS.enabledGet, CheckboxInputS.hide,
        CheckboxInputS.show_, CheckboxInputS.valueSet, CheckboxInputS.enabledSet,
        CheckboxInputS.createControl, CheckboxInputS.pyNot, CheckboxInputS.jsDisbled]
  · -- RadioGroup
    rcases sr with ⟨c, e, opts, vis⟩
    simp only at hr1
    subst hr1
    refine ⟨rfl, ?_, rfl⟩
    show RadioInputS.radioScan (RadioInputS.radioScan c opts)
        (((opts.map RadioInputS.freshOption).map
            (RadioInputS.setOption (RadioInputS.radioScan c opts))).map
          (RadioInputS.setOption (RadioInputS.radioScan c opts))) =
      RadioInputS.radioScan c opts
    rw [List.map_map, List.map_map]
    apply radioScan_inv
    intro o' ho' rb hcb hck
    rcases List.mem_map.mp ho' with ⟨o, _, rfl⟩
    exact radio_double_set_inv α (RadioInputS.radioScan c opts) o rb hcb hck
  · -- Dropdown
    rcases sdd with ⟨c, e, ctrl, vis⟩
    rcases wdd with ⟨wv, we⟩
    simp only at hdd1 hdd2
    subst hdd1; subst hdd2
    cases wv with
    | some x =>
      simp [DropdownS.valueGet, DropdownS.enabledGet, DropdownS.hide, DropdownS.show_,
        DropdownS.valueSet, DropdownS.enabledSet, DropdownS.createControl]
    | none =>
      cases c with
      | none =>
        simp [DropdownS.valueGet, DropdownS.enabledGet, DropdownS.hide, DropdownS.show_,
          DropdownS.valueSet, DropdownS.enabledSet, DropdownS.createControl]
      | some y =>
        simp [DropdownS.valueGet, DropdownS.enabledGet, DropdownS.hide, DropdownS.show_,
          DropdownS.valueSet, DropdownS.enabledSet, DropdownS.createControl]
  · -- Lookup (single-select)
    rcases sl with ⟨c, e, opts, ctrl, vis⟩
    rcases wl with ⟨wv, ds, we⟩
    simp only at hl1 hl2 hl3
    subst hl1; subst hl2
    cases wv with
    | some k =>
      cases hfind : ds.find? (fun o => o.uid = k) with
      | none =>
        simp [LookupInputS.valueGet, LookupInputS.enabledGet, LookupInputS.hide,
          LookupInputS.show_, LookupInputS.valueSet, LookupInputS.enabledSet,
          LookupInputS.createControl, LookupInputS.getDataByValue, hfind]
      | some it =>
        have hit : it.uid = k := by
          have := List.find?_some hfind
          simpa using this
        simp [LookupInputS.valueGet, LookupInputS.enabledGet, LookupInputS.hide,
          LookupInputS.show_, LookupInputS.valueSet, LookupInputS.enabledSet,
          LookupInputS.createControl, LookupInputS.getDataByValue, hfind, hit]
    | none =>
      cases c with
      | none =>
        simp [LookupInputS.valueGet, LookupInputS.enabledGet, LookupInputS.hide,
          LookupInputS.show_, LookupInputS.valueSet, LookupInputS.enabledSet,
          LookupInputS.createControl, LookupInputS.getDataByValue]
      | some it =>
        have hfind := hl3 it rfl
        simp [LookupInputS.valueGet, LookupInputS.enabledGet, LookupInputS.hide,
          LookupInputS.show_, LookupInputS.valueSet, LookupInputS.enabledSet,
          LookupInputS.createControl, LookupInputS.getDataByValue, hfind]
  · -- Signature
    rcases ss with ⟨c, e, ctrl, vis⟩
    rcases ws with ⟨sg, we⟩
    simp only at hs1 hs2
    subst hs1; subst hs2
    simp [SignatureInputS.valueGet, SignatureInputS.enabledGet, SignatureInputS.hide,
      SignatureInputS.show_, SignatureInputS.valueSet, SignatureInputS.enabledSet]
  · -- FileUpload
    rcases su with ⟨c, e, ctrl, vis⟩
    rcases wu with ⟨we⟩
    simp only at hu1 hu2
    subst hu1; subst hu2
    simp [UploadInputS.valueGet, UploadInputS.enabledGet, UploadInputS.hide,
      UploadInputS.show_, UploadInputS.valueSet, UploadInputS.enabledSet]
  · -- InlineMessage
    rcases sm with ⟨msg, c, e, vis⟩
    simp only at hm1
    subst hm1
    simp [InlineMessageS.valueGet, InlineMessageS.enabledGet, InlineMessageS.hide,
      InlineMessageS.show_]

/-- Claim C3, witness: concrete visible states for all eleven embedded
variants, with every hypothesis discharged. -/
theorem C3_witness :
    (let s3 := ((((⟨some 1, true, some ⟨some 2, false⟩, true⟩ :
        BaseInputS Nat).valueGet).2.enabledGet).2.hide).show_
     s3.visible = true ∧
     (s3.valueGet).1 = ((⟨some 1, true, some ⟨some 2, false⟩, true⟩ :
        BaseInputS Nat).valueGet).1 ∧
     ((s3.valueGet).2.enabledGet).1 = (((⟨some 1, true, some ⟨some 2, false⟩, true⟩ :
        BaseInputS Nat).valueGet).2.enabledGet).1) ∧
    (let s3 := ((((⟨some 5, true, some ⟨some 86400000, true⟩, true⟩ :
        DateInputS).valueGet).2.enabledGet).2.hide).show_
     s3.visible = true ∧
     (s3.valueGet).1 = ((⟨some 5, true, some ⟨some 86400000, true⟩, true⟩ :
        DateInputS).valueGet).1 ∧
     ((s3.valueGet).2.enabledGet).1 = (((⟨some 5, true, some ⟨some 86400000, true⟩, true⟩ :
        DateInputS).valueGet).2.enabledGet).1) ∧
    (let s3 := ((((⟨none, true, some ⟨some 5000, true⟩, true⟩ :
        DateTimeInputS).valueGet).2.enabledGet).2.hide).show_
     s3.visible = true ∧
     (s3.valueGet).1 = ((⟨none, true, some ⟨some 5000, true⟩, true⟩ :
        DateTimeInputS).valueGet).1 ∧
     ((s3.valueGet).2.enabledGet).1 = (((⟨none, true, some ⟨some 5000, true⟩, true⟩ :
        DateTimeInputS).valueGet).2.enabledGet).1) ∧
    (let s3 := ((((⟨none, true, some ⟨some 3600000, true⟩, true⟩ :
        TimeInputS).valueGet).2.enabledGet).2.hide).show_
     s3.visible = true ∧
     (s3.valueGet).1 = ((⟨none, true, some ⟨some 3600000, true⟩, true⟩ :
        TimeInputS).valueGet).1 ∧
     ((s3.valueGet).2.enabledGet).1 = (((⟨none, true, some ⟨some 3600000, true⟩, true⟩ :
        TimeInputS).valueGet).2.enabledGet).1) ∧
    (let s3 := ((((⟨some true, true, some ⟨true, false⟩, true⟩ :
        CheckboxInputS).valueGet).2.enabledGet).2.hide).show_
     s3.visible = true ∧
     (s3.valueGet).1 = ((⟨some true, true, some ⟨true, false⟩, true⟩ :
        CheckboxInputS).valueGet).1 ∧
     ((s3.valueGet).2.enabledGet).1 = (((⟨some true, true, some ⟨true, false⟩, true⟩ :
        CheckboxInputS).valueGet).2.enabledGet).1) ∧
    (let s3 := ((((⟨some 1, true, [⟨1, some ⟨true⟩⟩, ⟨2, some ⟨false⟩⟩], true⟩ :
        RadioInputS Nat).valueGet).2.enabledGet).2.hide).show_
     s3.visible = true ∧
     (s3.valueGet).1 = ((⟨some 1, true, [⟨1, some ⟨true⟩⟩, ⟨2, some ⟨false⟩⟩], true⟩ :
        RadioInputS Nat).valueGet).1 ∧
     ((s3.valueGet).2.enabledGet).1 =
       (((⟨some 1, true, [⟨1, some ⟨true⟩⟩, ⟨2, some ⟨false⟩⟩], true⟩ :
        RadioInputS Nat).valueGet).2.enabledGet).1) ∧
    (let s3 := ((((⟨some 1, true, some ⟨some 2, true⟩, true⟩ :
        DropdownS Nat).valueGet).2.enabledGet).2.hide).show_
     s3.visible = true ∧
     (s3.valueGet).1 = ((⟨some 1, true, some ⟨some 2, true⟩, true⟩ :
        DropdownS Nat).valueGet).1 ∧
     ((s3.valueGet).2.enabledGet).1 = (((⟨some 1, true, some ⟨some 2, true⟩, true⟩ :
        DropdownS Nat).valueGet).2.enabledGet).1) ∧
    (let s3 := ((((⟨some ⟨1, "a"⟩, true, [⟨1, "a"⟩], some ⟨some 1, [⟨1, "a"⟩], true⟩, true⟩ :
        LookupInputS Nat).valueGet).2.enabledGet).2.hide).show_
     s3.visible = true ∧
     (s3.valueGet).1 =
       ((⟨some ⟨1, "a"⟩, true, [⟨1, "a"⟩], some ⟨some 1, [⟨1, "a"⟩], true⟩, true⟩ :
        LookupInputS Nat).valueGet).1 ∧
     ((s3.valueGet).2.enabledGet).1 =
       (((⟨some ⟨1, "a"⟩, true, [⟨1, "a"⟩], some ⟨some 1, [⟨1, "a"⟩], true⟩, true⟩ :
        LookupInputS Nat).valueGet).2.enabledGet).1) ∧
    (let s3 := ((((⟨none, true, some ⟨9, true⟩, true⟩ :
        SignatureInputS Nat).valueGet).2.enabledGet).2.hide).show_
     s3.visible = true ∧
     (s3.valueGet).1 = ((⟨none, true, some ⟨9, true⟩, true⟩ :
        SignatureInputS Nat).valueGet).1 ∧
     ((s3.valueGet).2.enabledGet).1 = (((⟨none, true, some ⟨9, true⟩, true⟩ :
        SignatureInputS Nat).valueGet).2.enabledGet).1) ∧
    (let s3 := ((((⟨[1, 2], true, some ⟨true⟩, true⟩ :
        UploadInputS Nat).valueGet).2.enabledGet).2.hide).show_
     s3.visible = true ∧
     (s3.valueGet).1 = ((⟨[1, 2], true, some ⟨true⟩, true⟩ :
        UploadInputS Nat).valueGet).1 ∧
     ((s3.valueGet).2.enabledGet).1 = (((⟨[1, 2], true, some ⟨true⟩, true⟩ :
        UploadInputS Nat).valueGet).2.enabledGet).1) ∧
    (let s3 := ((((⟨some 4, none, true, true⟩ :
        InlineMessageS Nat).valueGet).2.enabledGet).2.hide).show_
     s3.visible = true ∧
     (s3.valueGet).1 = ((⟨some 4, none, true, true⟩ :
        InlineMessageS Nat).valueGet).1 ∧
     ((s3.valueGet).2.enabledGet).1 = (((⟨some 4, none, true, true⟩ :
        InlineMessageS Nat).valueGet).2.enabledGet).1) := by
  exact C3_hide_show_preserves Nat Nat
    ⟨some 1, true, some ⟨some 2, false⟩, true⟩ ⟨some 2, false⟩ rfl rfl
    ⟨some 5, true, some ⟨some 86400000, true⟩, true⟩ ⟨some 86400000, true⟩ rfl rfl
    ⟨none, true, some ⟨some 5000, true⟩, true⟩ ⟨some 5000, true⟩ rfl rfl
    (by intro ms h; simp at h; subst h; decide)
    (by intro h; simp at h)
    ⟨none, true, some ⟨some 3600000, true⟩, true⟩ ⟨some 3600000, true⟩ rfl rfl
    (by intro h; simp at h)
    ⟨some true, true, some ⟨true, false⟩, true⟩ ⟨true, false⟩ rfl rfl
    ⟨some 1, true, [⟨1, some ⟨true⟩⟩, ⟨2, some ⟨false⟩⟩], true⟩ rfl
    ⟨some 1, true, some ⟨some 2, true⟩, true⟩ ⟨some 2, true⟩ rfl rfl
    ⟨some ⟨1, "a"⟩, true, [⟨1, "a"⟩], some ⟨some 1, [⟨1, "a"⟩], true⟩, true⟩
    ⟨some 1, [⟨1, "a"⟩], true⟩ rfl rfl
    (by intro it h; injection h with h2; subst h2; rfl)
    ⟨none, true, some ⟨9, true⟩, true⟩ ⟨9, true⟩ rfl rfl
    ⟨[1, 2], true, some ⟨true⟩, true⟩ ⟨true⟩ rfl rfl
    ⟨some 4, none, true, true⟩ rfl

end AnvilFusion2
